import Mathlib

/-!
# The Club front end: session store and route guard

A shallow embedding of `src/auth/AuthProvider.jsx` (the session store) and
`src/auth/ProtectedRoute.jsx` (the route guard) of the front end, of the route
table of `src/routes/AppRouter.jsx`, and of the handlers of the Login,
Cadastro, Dashboard and NovaNoticia pages that touch the session, the storage
or the navigation.

React state, `localStorage` and the HTTP client's default header are made an
explicit `AuthState`; every handler is a function on that state.  The
`useEffect` of the provider is a separate step, `runEffects`, because React
runs it after the render that follows a state update: a guard rendered in
between sees the state before the effect.

Modelling assumptions:
* `JsVal` holds the JavaScript scalars; `num` stands for integer-valued
  numbers of magnitude below `10^21`, for which `String(n)` is the decimal
  numeral.
* `localStorage` is unbounded and never throws.
* the state updates of one handler are applied together before the next render.
* the values of form inputs, and the `titulo` and `categoriaNome` of an
  article when present, are strings; alerts and console output are left out.
* the built-in `toLowerCase` is a parameter of the definitions that call it.
-/

namespace TheClub

/-! ## JavaScript values -/

/-- JavaScript scalar values. -/
inductive JsVal where
  | undefined
  | null
  | bool (b : Bool)
  | num (n : Int)
  | str (s : String)
  deriving DecidableEq, Repr

namespace JsVal

/-- ToBoolean: what `if (v)` and `!v` test. -/
def truthy : JsVal → Bool
  | undefined => false
  | null => false
  | bool b => b
  | num n => n != 0
  | str s => s != ""

/-- ToString: what a template literal and `localStorage.setItem` store. -/
def toStr : JsVal → String
  | undefined => "undefined"
  | null => "null"
  | bool true => "true"
  | bool false => "false"
  | num n => toString n
  | str s => s

end JsVal

/-- Own properties of a plain object, in insertion order. -/
abbrev Fields := List (String × JsVal)

/-- Property read `obj.key`: `undefined` when the object has no such property. -/
def getProp : Fields → String → JsVal
  | [], _ => .undefined
  | (k, v) :: rest, key => if k = key then v else getProp rest key

/-- Method `Array.prototype.includes`: membership by SameValueZero, which on the
scalars of `JsVal` is equality. -/
def includes (xs : List JsVal) (v : JsVal) : Bool :=
  xs.any (fun x => decide (x = v))

/-! ## localStorage -/

/-- The browser's `localStorage`: string keys, string values, one entry per key. -/
abbrev Storage := List (String × String)

namespace Storage

/-- Method `localStorage.getItem(key)`: the stored string, or `null`. -/
def getItem : Storage → String → JsVal
  | [], _ => .null
  | (k, v) :: rest, key => if k = key then .str v else getItem rest key

/-- Method `localStorage.removeItem(key)`. -/
def removeItem (st : Storage) (key : String) : Storage :=
  st.filter (fun kv => decide (kv.1 ≠ key))

/-- Method `localStorage.setItem(key, value)`: the value is converted to a string. -/
def setItem (st : Storage) (key : String) (value : JsVal) : Storage :=
  (key, value.toStr) :: removeItem st key

end Storage

/-! ## AuthProvider.jsx -/

/-- The object held in the `user` state: `nome` and `tipo`, a property that
was not set reading as `undefined`. -/
structure User where
  nome : JsVal
  tipo : JsVal
  deriving DecidableEq, Repr

/-- Everything the provider reads or writes. -/
structure AuthState where
  /-- the browser's `localStorage` -/
  localStorage : Storage
  /-- state `const [user, setUser] = useState(null)`; `none` is `null` -/
  user : Option User
  /-- state `const [token, setToken] = useState(...)` -/
  token : JsVal
  /-- header `api.defaults.headers.Authorization`; `none` when unset -/
  authorization : Option String
  /-- the dependency list `[token]` of the last run of the effect; `none`
  before the effect ran for the first time -/
  effectDeps : Option JsVal
  deriving DecidableEq, Repr

/-- The body of a response, `response.data`. -/
inductive RespData where
  /-- either `null` or `undefined`: destructuring it throws a TypeError -/
  | nullish
  /-- an object with these properties -/
  | fields (fs : Fields)
  deriving DecidableEq, Repr

/-- How `await api.post(...)` ends. -/
inductive PostOutcome where
  /-- the promise rejects; `response` is `err.response` (absent for a network
  error, present for a rejected request) -/
  | rejected (response : Option RespData)
  /-- the promise resolves with a response whose body is `data` -/
  | resolved (data : RespData)
  deriving DecidableEq, Repr

/-- Errors thrown inside a handler. -/
inductive JsError where
  | requestFailed (response : Option RespData)
  | typeError
  deriving DecidableEq, Repr

/-- First render of `AuthProvider`: `user` starts `null`, `token` starts as
`localStorage.getItem("token")`; no effect has run yet.  The header of the
HTTP client is whatever the `api` module left there. -/
def AuthProvider (localStorage : Storage) (authorization : Option String) : AuthState :=
  { localStorage := localStorage
    user := none
    token := Storage.getItem localStorage "token"
    authorization := authorization
    effectDeps := none }

/-- The body of `useEffect(() => ..., [token])`. -/
def tokenEffect (s : AuthState) : AuthState :=
  if s.token.truthy then
    let s1 := { s with authorization := some ("Bearer " ++ s.token.toStr) }
    { s1 with user := some { nome := .str "Admin", tipo := .str "ADMIN" } }
  else s

/-- The effect phase after a render: the effect runs on mount and whenever
`token` differs from its value at the previous run. -/
def runEffects (s : AuthState) : AuthState :=
  if s.effectDeps = some s.token then s
  else tokenEffect { s with effectDeps := some s.token }

/-- The `try` block of `login`: the value it returns or the error it throws,
and the state it leaves. -/
def loginTry (email : JsVal) (post : PostOutcome) (s : AuthState) :
    Except JsError Bool × AuthState :=
  match post with
  | .rejected response => (.error (.requestFailed response), s)
  | .resolved .nullish => (.error .typeError, s)
  | .resolved (.fields fs) =>
    let token := getProp fs "token"
    let s1 := { s with localStorage := Storage.setItem s.localStorage "token" token }
    let s2 := { s1 with token := token }
    let s3 := { s2 with user := some { nome := email, tipo := .undefined } }
    (.ok true, s3)

/-- Function `login(email, senha)`, given how the request to `/auth/login` ends:
`catch` turns every error of the `try` block into the value `false`. -/
def login (email : JsVal) (post : PostOutcome) (s : AuthState) :
    Except JsError Bool × AuthState :=
  match loginTry email post s with
  | (.error _, s') => (.ok false, s')
  | (.ok b, s') => (.ok b, s')

/-- Function `logout()`. -/
def logout (s : AuthState) : Except JsError Unit × AuthState :=
  let s1 := { s with localStorage := Storage.removeItem s.localStorage "token" }
  let s2 := { s1 with user := none }
  let s3 := { s2 with token := .null }
  (.ok (), s3)

/-! ## ProtectedRoute.jsx -/

/-- What `ProtectedRoute` returns: a `Navigate` element or its children. -/
inductive Rendered where
  | navigate (path : String) (replace : Bool)
  | children
  deriving DecidableEq, Repr

/-- Optional chaining `user?.tipo`. -/
def userTipo : Option User → JsVal
  | none => .undefined
  | some u => u.tipo

/-- Component `ProtectedRoute({ children, allowedRoles })` rendered under a provider in
state `auth`.  `allowedRoles` is `none` when the prop is omitted, else the
array of strings its propTypes declare. -/
def ProtectedRoute (auth : AuthState) (allowedRoles : Option (List String)) : Rendered :=
  let token := auth.token
  let user := auth.user
  if !token.truthy then .navigate "/login" true
  else
    match allowedRoles with
    | some roles =>
      if !includes (roles.map JsVal.str) (userTipo user) then .navigate "/" true
      else .children
    | none => .children

/-! ## The provider as a transition system -/

/-- What can happen to a mounted provider. -/
inductive Action where
  /-- the effect phase after a render -/
  | effects
  /-- a call of `login` whose request to the backend ends as `post` -/
  | login (email : JsVal) (post : PostOutcome)
  /-- a call of `logout` -/
  | logout
  deriving DecidableEq, Repr

/-- The state after one action. -/
def Action.step (a : Action) (s : AuthState) : AuthState :=
  match a with
  | .effects => runEffects s
  | .login email post => (TheClub.login email post s).2
  | .logout => (TheClub.logout s).2

/-- The requests an action sends through the HTTP client, as method and
path: `login` calls `api.post("/auth/login", ...)`; the effect only assigns
the header and the state, and `logout` only clears, so they send none. -/
def Action.requests : Action → List (String × String)
  | .effects => []
  | .login _ _ => [("POST", "/auth/login")]
  | .logout => []

/-- The state after a sequence of actions, oldest first. -/
def run (actions : List Action) (s : AuthState) : AuthState :=
  actions.foldl (fun st a => a.step st) s

/-- Holds of every action except a `login` whose request resolves with an
object whose `token` is falsy (missing, null, empty). -/
def Action.tokenPresent : Action → Bool
  | .login _ (.resolved (.fields fs)) => (getProp fs "token").truthy
  | _ => true

/-! ## pages/Login.jsx -/

/-- What `handleLogin` of the Login view reads or writes, the form fields
apart (the request is given by how it ends). -/
structure LoginView where
  /-- the browser's `localStorage` -/
  localStorage : Storage
  /-- state `const [error, setError] = useState("")`, shown when truthy -/
  error : JsVal
  /-- state `const [loading, setLoading] = useState(false)` -/
  loading : Bool
  /-- the paths passed to `navigate`, oldest first -/
  navigations : List String
  deriving DecidableEq, Repr

/-- The message shown when the error carries no `erro`. -/
def genericLoginError : String := "Email ou senha incorretos. Tente novamente."

/-- Expression `err.response?.data?.erro` for a caught error: a TypeError has
no `response`. -/
def errResponseErro : JsError → JsVal
  | .requestFailed (some (.fields fs)) => getProp fs "erro"
  | .requestFailed (some .nullish) => .undefined
  | .requestFailed none => .undefined
  | .typeError => .undefined

/-- Operator `a || b`. -/
def jsOr (a b : JsVal) : JsVal :=
  if a.truthy then a else b

/-- The `try` block of `handleLogin`. -/
def handleLoginTry (post : PostOutcome) (v : LoginView) : Except JsError Unit × LoginView :=
  match post with
  | .rejected response => (.error (.requestFailed response), v)
  | .resolved .nullish => (.error .typeError, v)
  | .resolved (.fields fs) =>
    let v1 := { v with localStorage := Storage.setItem v.localStorage "token" (getProp fs "token") }
    let v2 := { v1 with localStorage := Storage.setItem v1.localStorage "userName" (getProp fs "nome") }
    let v3 := { v2 with localStorage := Storage.setItem v2.localStorage "userRole" (getProp fs "tipo") }
    let v4 := { v3 with localStorage := Storage.setItem v3.localStorage "userEmail" (getProp fs "email") }
    let v5 := { v4 with localStorage := Storage.setItem v4.localStorage "userId" (getProp fs "id") }
    let tipo := getProp fs "tipo"
    if tipo = .str "ADMIN" ∨ tipo = .str "EDITOR" ∨ tipo = .str "REDATOR" then
      (.ok (), { v5 with navigations := v5.navigations ++ ["/admin/dashboard"] })
    else
      (.ok (), { v5 with navigations := v5.navigations ++ ["/"] })

/-- Handler `handleLogin(e)` of the Login view, given how the request to the
login endpoint ends. -/
def handleLogin (post : PostOutcome) (v : LoginView) : Except JsError Unit × LoginView :=
  let v0 := { v with error := .str "" }
  let v1 := { v0 with loading := true }
  match handleLoginTry post v1 with
  | (.error err, v') =>
    let v2 := { v' with error := jsOr (errResponseErro err) (.str genericLoginError) }
    (.ok (), { v2 with loading := false })
  | (.ok u, v') => (.ok u, v')

/-! ## routes/AppRouter.jsx -/

/-- The page components the route table names. -/
inductive View where
  | Home
  | Editais
  | NoticiaDetalhes
  | Login
  | Cadastro
  | Dashboard
  | NovaNoticia
  | EditarNoticia
  | Categorias
  | AdminCategorias
  deriving DecidableEq, Repr

/-- Splits the characters of a path at every "/"; `cur` is the segment being
read, last character first. -/
def splitSlash : List Char → List Char → List (List Char)
  | [], cur => [cur.reverse]
  | c :: cs, cur => if c = '/' then cur.reverse :: splitSlash cs [] else splitSlash cs (c :: cur)

/-- The non-empty segments of a path. -/
def pathSegments (path : String) : List (List Char) :=
  (splitSlash path.data []).filter (fun seg => !seg.isEmpty)

/-- One segment against one segment of a route pattern: a pattern segment
that starts with ":" is a parameter and takes any segment, another one must
be the same text, letter case apart (the router's default). -/
def segmentMatches (pattern seg : List Char) : Bool :=
  match pattern with
  | ':' :: _ => true
  | _ => pattern.map Char.toLower == seg.map Char.toLower

/-- A path matches a pattern when they have as many segments and these match
one by one. -/
def segmentsMatch : List (List Char) → List (List Char) → Bool
  | [], [] => true
  | p :: ps, s :: ss => segmentMatches p s && segmentsMatch ps ss
  | _, _ => false

/-- The `Route` elements of `AppRouter`, in source order: `path` and the
component of `element`.  No element is wrapped in a guard. -/
def routes : List (String × View) :=
  [ ("/", .Home),
    ("/editais", .Editais),
    ("/noticia/:id", .NoticiaDetalhes),
    ("/admin/login", .Login),
    ("/admin/dashboard", .Dashboard),
    ("/admin/artigos/novo", .NovaNoticia),
    ("/admin/artigos/editar/:id", .EditarNoticia),
    ("/cadastro", .Cadastro),
    ("/categorias", .Categorias),
    ("/admin/categorias", .AdminCategorias) ]

/-- Component `AppRouter()`: the component rendered at a location, `none` when
no route matches.  It reads no session: the table is the same for every
visitor. -/
def AppRouter (path : String) : Option View :=
  (routes.find? (fun r => segmentsMatch (pathSegments r.1) (pathSegments path))).map (fun r => r.2)

/-! ## pages/Cadastro.jsx -/

/-- A request handed to the HTTP client. -/
structure Request where
  method : String
  url : String
  /-- the properties of the JSON body, in source order -/
  body : Fields
  /-- the headers the call site passes -/
  headers : List (String × String)
  deriving DecidableEq, Repr

/-- What `handleCadastro` of the Cadastro view reads or writes; the values of
the four inputs are strings. -/
structure CadastroView where
  /-- the browser's `localStorage` -/
  localStorage : Storage
  nome : String
  email : String
  senha : String
  confirmarSenha : String
  /-- state `const [error, setError] = useState("")` -/
  error : JsVal
  /-- state `const [loading, setLoading] = useState(false)` -/
  loading : Bool
  /-- the paths passed to `navigate`, oldest first -/
  navigations : List String
  /-- the requests sent, oldest first -/
  requests : List Request
  deriving DecidableEq, Repr

/-- The `try` block of `handleCadastro`: the request is sent, then `post` says
how it ends. -/
def handleCadastroTry (post : PostOutcome) (v : CadastroView) :
    Except JsError Unit × CadastroView :=
  let v1 := { v with requests := v.requests ++
    [{ method := "POST"
       url := "http://localhost:8081/api/auth/register"
       body := [("nome", .str v.nome), ("email", .str v.email), ("senha", .str v.senha)]
       headers := [] }] }
  match post with
  | .rejected response => (.error (.requestFailed response), v1)
  | .resolved _ =>
    let v2 := { v1 with loading := false }
    (.ok (), { v2 with navigations := v2.navigations ++ ["/admin/login"] })

/-- Handler `handleCadastro(e)` of the Cadastro view, given how the request to
the register endpoint ends if it is sent. -/
def handleCadastro (post : PostOutcome) (v : CadastroView) :
    Except JsError Unit × CadastroView :=
  let v0 := { v with error := .str "" }
  if v0.senha ≠ v0.confirmarSenha then
    (.ok (), { v0 with error := .str "As senhas não correspondem." })
  else
    let v1 := { v0 with loading := true }
    match handleCadastroTry post v1 with
    | (.error err, v') =>
      let mensagem := jsOr (errResponseErro err) (.str "Falha no cadastro, tente novamente.")
      let v2 := { v' with error := mensagem }
      (.ok (), { v2 with loading := false })
    | (.ok u, v') => (.ok u, v')

/-! ## pages/admin/Dashboard.jsx -/

/-- An article as the Dashboard reads it: `titulo` and `categoriaNome` are
strings when present; `none` stands for a missing or null property. -/
structure Noticia where
  titulo : Option String
  categoriaNome : Option String
  deriving DecidableEq, Repr

/-- What the Dashboard code modelled here reads or writes. -/
structure DashboardView where
  /-- the browser's `localStorage` -/
  localStorage : Storage
  /-- state `const [noticias, setNoticias] = useState([])` -/
  noticias : List Noticia
  /-- state `const [termoBusca, setTermoBusca] = useState("")` -/
  termoBusca : String
  /-- the paths passed to `navigate`, oldest first -/
  navigations : List String
  deriving DecidableEq, Repr

/-- The `onClick` of the "Sair" button. -/
def sairOnClick (v : DashboardView) : DashboardView :=
  let v1 := { v with localStorage := Storage.removeItem v.localStorage "token" }
  { v1 with navigations := v1.navigations ++ ["/admin/login"] }

/-- White space and line terminators of the language: what `trim` removes and
`parseInt` skips. -/
def isWhiteSpace (c : Char) : Bool :=
  let n := c.toNat
  n == 9 || n == 10 || n == 11 || n == 12 || n == 13 || n == 32 || n == 160 || n == 5760 ||
    (8192 ≤ n && n ≤ 8202) || n == 8232 || n == 8233 || n == 8239 || n == 8287 ||
    n == 12288 || n == 65279

/-- Method `String.prototype.trim`. -/
def jsTrim (s : String) : String :=
  ⟨((s.data.dropWhile isWhiteSpace).reverse.dropWhile isWhiteSpace).reverse⟩

/-- Whether `t` occurs in the given characters as a contiguous run. -/
def isSubstringOf (t : List Char) : List Char → Bool
  | [] => t.isEmpty
  | c :: cs => t.isPrefixOf (c :: cs) || isSubstringOf t cs

/-- Method `String.prototype.includes` with a string argument. -/
def strIncludes (s t : String) : Bool :=
  isSubstringOf t.data s.data

/-- Value `noticiasFiltradas` of a render.  The built-in `toLowerCase` is a
parameter. -/
def noticiasFiltradas (toLowerCase : String → String) (v : DashboardView) : List Noticia :=
  v.noticias.filter (fun noticia =>
    let t := toLowerCase (jsTrim v.termoBusca)
    if t = "" then true
    else
      (match noticia.titulo with
        | some titulo => titulo != "" && strIncludes (toLowerCase titulo) t
        | none => false) ||
      (match noticia.categoriaNome with
        | some categoriaNome => categoriaNome != "" && strIncludes (toLowerCase categoriaNome) t
        | none => false))

/-- The claim's reading of a match: the article's `titulo`, or its
`categoriaNome`, is present and, lower-cased, contains the trimmed and
lower-cased term. -/
def containsTerm (toLowerCase : String → String) (termoBusca : String) (noticia : Noticia) :
    Bool :=
  (match noticia.titulo with
    | some titulo => strIncludes (toLowerCase titulo) (toLowerCase (jsTrim termoBusca))
    | none => false) ||
  (match noticia.categoriaNome with
    | some categoriaNome =>
      strIncludes (toLowerCase categoriaNome) (toLowerCase (jsTrim termoBusca))
    | none => false)

/-- Lower-casing of the letters A to Z only: what `toLowerCase` does on ASCII
text.  Used to run the filter on examples. -/
def asciiToLowerCase (s : String) : String :=
  ⟨s.data.map Char.toLower⟩

/-- The text of a built-in function called `name`, as Chromium and Node print
it (the standard fixes it up to white space). -/
def nativeFunctionText (name : String) : String :=
  "function " ++ name ++ "() \x7b [native code] \x7d"

/-- What `({})[key]` turns into under `+ 1`, for the property names of
`Object.prototype`: the text of the inherited function, and for "__proto__"
the text of the prototype object; `none` for every other key. -/
def objectPrototypeText (key : String) : Option String :=
  if key = "__proto__" then some "[object Object]"
  else if key = "constructor" then some (nativeFunctionText "Object")
  else if key ∈ ["__defineGetter__", "__defineSetter__", "hasOwnProperty", "__lookupGetter__",
      "__lookupSetter__", "isPrototypeOf", "propertyIsEnumerable", "toString", "valueOf",
      "toLocaleString"] then some (nativeFunctionText key)
  else none

/-- Own property `key` of an object, if it has one. -/
def ownProp : Fields → String → Option JsVal
  | [], _ => none
  | (k, v) :: rest, key => if k = key then some v else ownProp rest key

/-- Property read `contagem[key]` on an object created by `{}`: the own
property, else what `Object.prototype` has under that name.  An inherited
function or object is stood for by its text: it is truthy, and `+ 1` turns it
into that text followed by "1". -/
def readProp (contagem : Fields) (key : String) : JsVal :=
  match ownProp contagem key with
  | some v => v
  | none =>
    match objectPrototypeText key with
    | some text => .str text
    | none => .undefined

/-- Expression `(x || 0) + 1`: a number is incremented, a non-empty string
gets "1" appended. -/
def orZeroPlusOne : JsVal → JsVal
  | .undefined => .num 1
  | .null => .num 1
  | .bool false => .num 1
  | .bool true => .num 2
  | .num n => .num (n + 1)
  | .str s => if s = "" then .num 1 else .str (s ++ "1")

/-- Writes own property `key`, keeping its place if it exists and adding it
last if not. -/
def setProp : Fields → String → JsVal → Fields
  | [], key, value => [(key, value)]
  | (k, v) :: rest, key, value =>
    if k = key then (k, value) :: rest else (k, v) :: setProp rest key value

/-- Assignment `contagem[key] = value` of a number or a string on an object
created by `{}`: under "__proto__" it reaches the setter of `Object.prototype`,
which ignores a value that is not an object; under any other key it writes an
own property. -/
def assignProp (contagem : Fields) (key : String) (value : JsVal) : Fields :=
  if key = "__proto__" then contagem else setProp contagem key value

/-- A key that is an array index: the decimal numeral, without leading zero, of
a number below `2^32 - 1`. -/
def arrayIndex (key : String) : Option Nat :=
  match key.data with
  | [] => none
  | c :: cs =>
    if (c :: cs).all Char.isDigit && (c != '0' || cs.isEmpty) then
      let n := (c :: cs).foldl (fun acc d => 10 * acc + (d.toNat - 48)) 0
      if n < 4294967295 then some n else none
    else none

/-- Function `Object.entries`: the own properties, those whose key is an array
index first, in ascending order, then the others in the order they were
added. -/
def objectEntries (o : Fields) : Fields :=
  ((o.filterMap (fun kv => (arrayIndex kv.1).map (fun i => (i, kv)))).insertionSort
      (fun a b => a.1 ≤ b.1)).map (fun ikv => ikv.2) ++
    o.filter (fun kv => (arrayIndex kv.1).isNone)

/-- The name an article is counted under: `noticia.categoriaNome || "Sem Categoria"`. -/
def categoriaOuPadrao (noticia : Noticia) : String :=
  match noticia.categoriaNome with
  | some categoriaNome => if categoriaNome = "" then "Sem Categoria" else categoriaNome
  | none => "Sem Categoria"

/-- The object `contagem` after the `forEach` over the given articles. -/
def contarCategorias (noticias : List Noticia) : Fields :=
  noticias.foldl (fun contagem noticia =>
    let categoriaNome := categoriaOuPadrao noticia
    assignProp contagem categoriaNome (orZeroPlusOne (readProp contagem categoriaNome))) []

/-- Function `calcularPorcentagensCategorias()`: the `nome` and the
`quantidade` of each entry.  The third property, `porcentagem`, is the text of
a floating-point number and is left out. -/
def calcularPorcentagensCategorias (v : DashboardView) : List (String × JsVal) :=
  if v.noticias.length = 0 then []
  else (objectEntries (contarCategorias v.noticias)).map (fun e => (e.1, e.2))

/-! ## pages/admin/NovaNoticia.jsx -/

/-- The value of a character as a digit in the given radix, if it is one. -/
def digitValue (radix : Nat) (c : Char) : Option Nat :=
  let n := c.toNat
  let d :=
    if 48 ≤ n ∧ n ≤ 57 then some (n - 48)
    else if 97 ≤ n ∧ n ≤ 122 then some (n - 87)
    else if 65 ≤ n ∧ n ≤ 90 then some (n - 55)
    else none
  match d with
  | some k => if k < radix then some k else none
  | none => none

/-- Reads the longest run of leading digits; `acc` is `none` until a digit was
read. -/
def parseDigits (radix : Nat) : List Char → Option Nat → Option Nat
  | [], acc => acc
  | c :: cs, acc =>
    match digitValue radix c with
    | some d => parseDigits radix cs (some (radix * acc.getD 0 + d))
    | none => acc

/-- Function `parseInt(string)` without a radix; `none` is NaN.  Leading white
space is skipped, then a sign, then "0x" or "0X" selects radix 16, then the
digits are read up to the first character that is not one.  The result is the
exact integer (the language rounds it above `2^53`), and `-0` is `0`. -/
def parseInt (s : String) : Option Int :=
  let trimmed := s.data.dropWhile isWhiteSpace
  let signed : Bool × List Char :=
    match trimmed with
    | '-' :: rest => (true, rest)
    | '+' :: rest => (false, rest)
    | rest => (false, rest)
  let based : Nat × List Char :=
    match signed.2 with
    | '0' :: 'x' :: rest => (16, rest)
    | '0' :: 'X' :: rest => (16, rest)
    | rest => (10, rest)
  match parseDigits based.1 based.2 none with
  | none => none
  | some n => some (if signed.1 then -(n : Int) else (n : Int))

/-- What `handleSubmit` of the NovaNoticia view reads or writes; alerts and
console output are left out. -/
structure NovaNoticiaView where
  /-- the browser's `localStorage` -/
  localStorage : Storage
  titulo : String
  resumo : String
  conteudo : String
  /-- state `imagemCapa`: "" at first, then the `url` an upload returned -/
  imagemCapa : JsVal
  /-- state `categoriaId`: the value of the select -/
  categoriaId : String
  /-- state `const [loading, setLoading] = useState(false)` -/
  loading : Bool
  /-- the paths passed to `navigate`, oldest first -/
  navigations : List String
  /-- the requests sent, oldest first -/
  requests : List Request
  deriving DecidableEq, Repr

/-- The object `dados` sent as the body, `categoriaId` being the parsed number. -/
def dadosNoticia (v : NovaNoticiaView) (categoriaId : Int) : Fields :=
  [ ("titulo", .str (jsTrim v.titulo)),
    ("resumo", .str (jsTrim v.resumo)),
    ("conteudo", .str (jsTrim v.conteudo)),
    ("imagemCapa", jsOr v.imagemCapa .null),
    ("categoriaId", .num categoriaId),
    ("status", .str "PUBLICADO") ]

/-- The `try` block of `handleSubmit`. -/
def handleSubmitTry (post : PostOutcome) (v : NovaNoticiaView) :
    Except JsError Unit × NovaNoticiaView :=
  let token := Storage.getItem v.localStorage "token"
  if !token.truthy then
    (.ok (), { v with navigations := v.navigations ++ ["/admin/login"] })
  else
    match parseInt v.categoriaId with
    | none => (.ok (), { v with loading := false })
    | some categoriaId =>
      if categoriaId = 0 then (.ok (), { v with loading := false })
      else
        let v1 := { v with requests := v.requests ++
          [{ method := "POST"
             url := "http://localhost:8081/api/artigos"
             body := dadosNoticia v categoriaId
             headers := [("Authorization", "Bearer " ++ token.toStr),
               ("Content-Type", "application/json")] }] }
        match post with
        | .rejected response => (.error (.requestFailed response), v1)
        | .resolved _ => (.ok (), { v1 with navigations := v1.navigations ++ ["/admin/dashboard"] })

/-- Handler `handleSubmit(e)` of the NovaNoticia view, given how the request
that creates the article ends if it is sent. -/
def handleSubmit (post : PostOutcome) (v : NovaNoticiaView) :
    Except JsError Unit × NovaNoticiaView :=
  if v.categoriaId = "" then (.ok (), v)
  else if jsTrim v.titulo = "" then (.ok (), v)
  else
    let v1 := { v with loading := true }
    match handleSubmitTry post v1 with
    | (.error _, v') => (.ok (), { v' with loading := false })
    | (.ok u, v') => (.ok u, v')

/-! ## Lemmas on the storage and the guard -/

theorem Storage.getItem_removeItem (st : Storage) (key : String) :
    Storage.getItem (Storage.removeItem st key) key = .null := by
  induction st with
  | nil => rfl
  | cons kv rest ih =>
    obtain ⟨k, v⟩ := kv
    by_cases h : k = key
    · simpa [Storage.removeItem, h] using ih
    · simpa [Storage.removeItem, Storage.getItem, h] using ih

theorem Storage.getItem_setItem (st : Storage) (key : String) (value : JsVal) :
    Storage.getItem (Storage.setItem st key value) key = .str value.toStr := by
  simp [Storage.setItem, Storage.getItem]

theorem Storage.removeItem_removeItem (st : Storage) (key : String) :
    Storage.removeItem (Storage.removeItem st key) key = Storage.removeItem st key := by
  simp [Storage.removeItem, List.filter_filter]

theorem Storage.removeItem_of_getItem_null (st : Storage) (key : String)
    (h : Storage.getItem st key = .null) : Storage.removeItem st key = st := by
  induction st with
  | nil => rfl
  | cons kv rest ih =>
    obtain ⟨k, v⟩ := kv
    by_cases hk : k = key
    · simp [Storage.getItem, hk] at h
    · simp only [Storage.getItem, hk, if_false] at h
      have hrest : List.filter (fun kv => decide (kv.1 ≠ key)) rest = rest := ih h
      simp only [Storage.removeItem]
      rw [List.filter_cons_of_pos (by simpa using hk), hrest]

theorem includes_map_str (roles : List String) (v : JsVal) :
    includes (roles.map JsVal.str) v = true ↔ ∃ r ∈ roles, v = .str r := by
  unfold includes
  rw [List.any_eq_true]
  constructor
  · rintro ⟨x, hx, hxv⟩
    obtain ⟨r, hr, rfl⟩ := List.mem_map.mp hx
    exact ⟨r, hr, (of_decide_eq_true hxv).symm⟩
  · rintro ⟨r, hr, rfl⟩
    exact ⟨.str r, List.mem_map.mpr ⟨r, hr, rfl⟩, decide_eq_true rfl⟩

theorem truthy_str (T : String) (h : T ≠ "") : (JsVal.str T).truthy = true := by
  simp [JsVal.truthy, h]

theorem ProtectedRoute_of_falsy (s : AuthState) (allowedRoles : Option (List String))
    (h : s.token.truthy = false) :
    ProtectedRoute s allowedRoles = .navigate "/login" true := by
  simp [ProtectedRoute, h]

theorem logout_snd (s : AuthState) :
    (logout s).2 =
      { localStorage := Storage.removeItem s.localStorage "token"
        user := none
        token := .null
        authorization := s.authorization
        effectDeps := s.effectDeps } := rfl

theorem runEffects_of_falsy (s : AuthState) (h : s.token.truthy = false) :
    runEffects s = s ∨ runEffects s = { s with effectDeps := some s.token } := by
  unfold runEffects
  by_cases hd : s.effectDeps = some s.token
  · left; simp [hd]
  · right; simp [hd, tokenEffect, h]

theorem runEffects_token (s : AuthState) : (runEffects s).token = s.token := by
  unfold runEffects tokenEffect
  by_cases hd : s.effectDeps = some s.token <;> by_cases ht : s.token.truthy = true <;>
    simp [hd, ht]

theorem runEffects_localStorage (s : AuthState) :
    (runEffects s).localStorage = s.localStorage := by
  unfold runEffects tokenEffect
  by_cases hd : s.effectDeps = some s.token <;> by_cases ht : s.token.truthy = true <;>
    simp [hd, ht]

theorem runEffects_user_of_falsy (s : AuthState) (h : s.token.truthy = false) :
    (runEffects s).user = s.user := by
  rcases runEffects_of_falsy s h with h' | h' <;> rw [h']

theorem ProtectedRoute_after_logout (s : AuthState) (allowedRoles : Option (List String)) :
    ProtectedRoute (logout s).2 allowedRoles = .navigate "/login" true ∧
    ProtectedRoute (runEffects (logout s).2) allowedRoles = .navigate "/login" true := by
  have hfalsy : (logout s).2.token.truthy = false := by rw [logout_snd]; rfl
  refine ⟨ProtectedRoute_of_falsy _ _ hfalsy, ProtectedRoute_of_falsy _ _ ?_⟩
  rw [runEffects_token]; exact hfalsy

theorem login_resolved_fields (email : JsVal) (fs : Fields) (s : AuthState) :
    login email (.resolved (.fields fs)) s =
      (.ok true,
        { localStorage := Storage.setItem s.localStorage "token" (getProp fs "token")
          user := some { nome := email, tipo := .undefined }
          token := getProp fs "token"
          authorization := s.authorization
          effectDeps := s.effectDeps }) := rfl

theorem handleLogin_rejected (response : Option RespData) (v : LoginView) :
    handleLogin (.rejected response) v =
      (.ok (),
        { localStorage := v.localStorage
          error := jsOr (errResponseErro (.requestFailed response)) (.str genericLoginError)
          loading := false
          navigations := v.navigations }) := rfl

theorem runEffects_AuthProvider_of_falsy (ls : Storage) (authorization : Option String)
    (h : (Storage.getItem ls "token").truthy = false) :
    runEffects (AuthProvider ls authorization) =
      { localStorage := ls
        user := none
        token := Storage.getItem ls "token"
        authorization := authorization
        effectDeps := some (Storage.getItem ls "token") } := by
  simp [runEffects, AuthProvider, tokenEffect, h]

theorem runEffects_AuthProvider_of_truthy (ls : Storage) (authorization : Option String)
    (h : (Storage.getItem ls "token").truthy = true) :
    runEffects (AuthProvider ls authorization) =
      { localStorage := ls
        user := some { nome := .str "Admin", tipo := .str "ADMIN" }
        token := Storage.getItem ls "token"
        authorization := some ("Bearer " ++ (Storage.getItem ls "token").toStr)
        effectDeps := some (Storage.getItem ls "token") } := by
  simp [runEffects, AuthProvider, tokenEffect, h]

theorem Storage.getItem_removeItem_of_ne (st : Storage) (key k : String) (h : k ≠ key) :
    Storage.getItem (Storage.removeItem st key) k = Storage.getItem st k := by
  induction st with
  | nil => rfl
  | cons kv rest ih =>
    obtain ⟨k', v⟩ := kv
    by_cases hk : k' = key
    · subst hk
      have hne : ¬ k' = k := fun e => h e.symm
      simpa [Storage.removeItem, Storage.getItem, hne] using ih
    · by_cases hk2 : k' = k
      · subst hk2
        simp only [Storage.removeItem]
        rw [List.filter_cons_of_pos (by simpa using hk)]
        simp [Storage.getItem]
      · simp only [Storage.removeItem]
        rw [List.filter_cons_of_pos (by simpa using hk)]
        simpa [Storage.getItem, hk2, Storage.removeItem] using ih

theorem Storage.getItem_setItem_of_ne (st : Storage) (key k : String) (value : JsVal)
    (h : k ≠ key) :
    Storage.getItem (Storage.setItem st key value) k = Storage.getItem st k := by
  have hne : ¬ key = k := fun e => h e.symm
  simp only [Storage.setItem, Storage.getItem, hne, if_false]
  exact Storage.getItem_removeItem_of_ne st key k h

theorem handleLogin_resolved_localStorage (fs : Fields) (v : LoginView) :
    (handleLogin (.resolved (.fields fs)) v).2.localStorage =
      Storage.setItem (Storage.setItem (Storage.setItem (Storage.setItem
        (Storage.setItem v.localStorage "token" (getProp fs "token"))
        "userName" (getProp fs "nome")) "userRole" (getProp fs "tipo"))
        "userEmail" (getProp fs "email")) "userId" (getProp fs "id") := by
  by_cases hc : getProp fs "tipo" = .str "ADMIN" ∨ getProp fs "tipo" = .str "EDITOR" ∨
      getProp fs "tipo" = .str "REDATOR"
  · simp only [handleLogin, handleLoginTry, hc, if_true]
  · simp only [handleLogin, handleLoginTry, hc, if_false]

/-- One action keeps: the identity is non-null exactly when the token is truthy,
provided a resolved login carries a truthy token. -/
theorem Action.step_identity_iff_token (a : Action) (s : AuthState)
    (ha : a.tokenPresent = true) (h : s.user ≠ none ↔ s.token.truthy = true) :
    (a.step s).user ≠ none ↔ (a.step s).token.truthy = true := by
  cases a with
  | effects =>
    simp only [Action.step, runEffects, tokenEffect]
    by_cases hd : s.effectDeps = some s.token
    · simpa [hd] using h
    · by_cases ht : s.token.truthy = true
      · simp [hd, ht]
      · simpa [hd, ht] using h
  | login email post =>
    cases post with
    | rejected response => exact h
    | resolved data =>
      cases data with
      | nullish => exact h
      | fields fs =>
        simp only [Action.step, login_resolved_fields]
        simpa [Action.tokenPresent] using ha
  | logout =>
    simp [Action.step, logout_snd, JsVal.truthy]

theorem run_identity_iff_token (actions : List Action) (s : AuthState)
    (hwf : ∀ a ∈ actions, a.tokenPresent = true)
    (h : s.user ≠ none ↔ s.token.truthy = true) :
    (run actions s).user ≠ none ↔ (run actions s).token.truthy = true := by
  induction actions generalizing s with
  | nil => exact h
  | cons a rest ih =>
    have hrun : run (a :: rest) s = run rest (a.step s) := rfl
    rw [hrun]
    exact ih (a.step s) (fun b hb => hwf b (List.mem_cons_of_mem a hb))
      (Action.step_identity_iff_token a s (hwf a (List.mem_cons_self a rest)) h)

/-- One action keeps: when the effect last ran for a truthy token, the header
is "Bearer " followed by that token. -/
theorem Action.step_header (a : Action) (s : AuthState)
    (h : ∀ t, s.effectDeps = some t → t.truthy = true →
      s.authorization = some ("Bearer " ++ t.toStr)) :
    ∀ t, (a.step s).effectDeps = some t → t.truthy = true →
      (a.step s).authorization = some ("Bearer " ++ t.toStr) := by
  cases a with
  | effects =>
    intro t
    simp only [Action.step, runEffects, tokenEffect]
    by_cases hd : s.effectDeps = some s.token
    · simpa [hd] using h t
    · by_cases ht : s.token.truthy = true
      · simp only [hd, ht, if_false, if_true]
        intro ht1 _
        cases ht1
        rfl
      · simp only [hd, ht, if_false]
        intro ht1 ht2
        cases ht1
        exact absurd ht2 ht
  | login email post =>
    cases post with
    | rejected response => exact h
    | resolved data =>
      cases data with
      | nullish => exact h
      | fields fs => simpa only [Action.step, login_resolved_fields] using h
  | logout => simpa only [Action.step, logout_snd] using h

theorem run_header (actions : List Action) (s : AuthState)
    (h : ∀ t, s.effectDeps = some t → t.truthy = true →
      s.authorization = some ("Bearer " ++ t.toStr)) :
    ∀ t, (run actions s).effectDeps = some t → t.truthy = true →
      (run actions s).authorization = some ("Bearer " ++ t.toStr) := by
  induction actions generalizing s with
  | nil => exact h
  | cons a rest ih =>
    have hrun : run (a :: rest) s = run rest (a.step s) := rfl
    rw [hrun]
    exact ih (a.step s) (Action.step_header a s h)

theorem String.mk_eq_empty_iff (l : List Char) : (String.mk l = "") ↔ l = [] := by
  constructor
  · intro h
    have := congrArg String.data h
    simpa using this
  · intro h
    subst h
    rfl

theorem mem_dropWhile_of_not (p : Char → Bool) (l : List Char) (c : Char)
    (hc : c ∈ l) (hw : ¬ p c = true) : c ∈ l.dropWhile p := by
  induction l with
  | nil => cases hc
  | cons a rest ih =>
    by_cases ha : p a = true
    · rw [List.dropWhile_cons_of_pos ha]
      rcases List.mem_cons.mp hc with rfl | hrest
      · exact absurd ha hw
      · exact ih hrest
    · rw [List.dropWhile_cons_of_neg ha]
      exact hc

theorem jsTrim_eq_empty_iff (s : String) :
    jsTrim s = "" ↔ ∀ c ∈ s.data, isWhiteSpace c = true := by
  unfold jsTrim
  rw [String.mk_eq_empty_iff, List.reverse_eq_nil_iff, List.dropWhile_eq_nil_iff]
  constructor
  · intro h c hc
    by_contra hw
    exact hw (h c (List.mem_reverse.mpr (mem_dropWhile_of_not _ _ c hc hw)))
  · intro h c hc
    exact h c (List.dropWhile_subset _ (List.mem_reverse.mp hc))

theorem strIncludes_empty_left (t : String) (ht : t ≠ "") : strIncludes "" t = false := by
  have hne : t.data ≠ [] := by
    intro h
    apply ht
    cases t
    simp_all
  cases hd : t.data with
  | nil => exact absurd hd hne
  | cons c cs => simp [strIncludes, isSubstringOf, hd]

theorem asciiToLowerCase_eq_empty_iff (s : String) : asciiToLowerCase s = "" ↔ s = "" := by
  unfold asciiToLowerCase
  rw [String.mk_eq_empty_iff]
  cases s with
  | mk l =>
    rw [String.mk_eq_empty_iff]
    simp

theorem ownProp_setProp (m : Fields) (key k : String) (value : JsVal) :
    ownProp (setProp m key value) k = if k = key then some value else ownProp m k := by
  induction m with
  | nil =>
    by_cases h : k = key
    · simp [setProp, ownProp, h]
    · have h' : ¬ key = k := fun e => h e.symm
      simp [setProp, ownProp, h, h']
  | cons kv rest ih =>
    obtain ⟨k', v⟩ := kv
    by_cases hk : k' = key
    · subst hk
      by_cases h : k = k'
      · subst h
        simp [setProp, ownProp]
      · have h' : ¬ k' = k := fun e => h e.symm
        simp [setProp, ownProp, h, h']
    · by_cases h : k' = k
      · subst h
        simp [setProp, ownProp, hk]
      · simp only [setProp, hk, if_false, ownProp, h]
        exact ih

/-- One step of the `forEach` of `contarCategorias`, on the name counted. -/
theorem contar_step_ownProp (m : Fields) (done : List String) (key : String)
    (hkey : objectPrototypeText key = none)
    (hinv : ∀ k, ownProp m k
      = if done.count k = 0 then none else some (.num (done.count k))) :
    ∀ k, ownProp (assignProp m key (orZeroPlusOne (readProp m key))) k
      = if (done ++ [key]).count k = 0 then none
        else some (.num ((done ++ [key]).count k : Nat)) := by
  intro k
  have hproto : key ≠ "__proto__" := by
    intro h
    rw [h] at hkey
    simp [objectPrototypeText] at hkey
  have hread : orZeroPlusOne (readProp m key) = .num ((done.count key : Nat) + 1) := by
    unfold readProp
    rw [hinv key, hkey]
    by_cases hc : done.count key = 0
    · simp [hc, orZeroPlusOne]
    · simp [hc, orZeroPlusOne]
  rw [hread]
  simp only [assignProp, hproto, if_false, ownProp_setProp, List.count_append]
  by_cases hk : k = key
  · subst hk
    simp
  · have hk' : ¬ key = k := fun e => hk e.symm
    have hcount : List.count k [key] = 0 := by simp [List.count_singleton, hk']
    simp only [hk, if_false, hcount, Nat.add_zero]
    exact hinv k

theorem foldl_contar_ownProp (names done : List String) (m : Fields)
    (hnames : ∀ key ∈ names, objectPrototypeText key = none)
    (hinv : ∀ k, ownProp m k
      = if done.count k = 0 then none else some (.num (done.count k))) :
    ∀ k, ownProp (names.foldl
        (fun contagem key => assignProp contagem key (orZeroPlusOne (readProp contagem key))) m) k
      = if (done ++ names).count k = 0 then none
        else some (.num ((done ++ names).count k : Nat)) := by
  induction names generalizing done m with
  | nil => simpa using hinv
  | cons key rest ih =>
    have h := ih (done ++ [key]) (assignProp m key (orZeroPlusOne (readProp m key)))
      (fun k hk => hnames k (List.mem_cons_of_mem key hk))
      (contar_step_ownProp m done key (hnames key (List.mem_cons_self key rest)) hinv)
    simpa [List.append_assoc] using h

/-- When no article is counted under a name that `Object.prototype` has, the
object `contagem` holds, under each name, the number of articles counted under
it, and nothing under any other name. -/
theorem contarCategorias_ownProp (noticias : List Noticia)
    (h : ∀ n ∈ noticias, objectPrototypeText (categoriaOuPadrao n) = none) (k : String) :
    ownProp (contarCategorias noticias) k
      = if (noticias.map categoriaOuPadrao).count k = 0 then none
        else some (.num ((noticias.map categoriaOuPadrao).count k : Nat)) := by
  have hfold : contarCategorias noticias
      = (noticias.map categoriaOuPadrao).foldl
          (fun contagem key => assignProp contagem key (orZeroPlusOne (readProp contagem key)))
          [] := by
    unfold contarCategorias
    rw [List.foldl_map]
  rw [hfold]
  have := foldl_contar_ownProp (noticias.map categoriaOuPadrao) [] []
    (by
      intro key hkey
      obtain ⟨n, hn, rfl⟩ := List.mem_map.mp hkey
      exact h n hn)
    (by intro k; simp [ownProp]) k
  simpa using this

/-! ## Route guard -/

/-- C1: with an absent token (null, undefined or the empty string) the guard
returns the redirect to "/login" for every identity and every allowedRoles
(omitted, empty or any list); it is neither the children nor the redirect to
"/". -/
theorem ProtectedRoute_absent_token (s : AuthState) (allowedRoles : Option (List String))
    (h : s.token = .null ∨ s.token = .undefined ∨ s.token = .str "") :
    ProtectedRoute s allowedRoles = .navigate "/login" true ∧
    ProtectedRoute s allowedRoles ≠ .children ∧
    ProtectedRoute s allowedRoles ≠ .navigate "/" true := by
  have hf : s.token.truthy = false := by
    rcases h with h | h | h <;> simp [h, JsVal.truthy]
  rw [ProtectedRoute_of_falsy s allowedRoles hf]
  exact ⟨rfl, by decide, by decide⟩

theorem ProtectedRoute_absent_token_witness :
    ((JsVal.str "" = .null ∨ JsVal.str "" = .undefined ∨ JsVal.str "" = .str "")) ∧
    (ProtectedRoute ⟨[], some ⟨.str "Admin", .str "ADMIN"⟩, .str "", none, none⟩
        (some ["ADMIN"]) = .navigate "/login" true ∧
      ProtectedRoute ⟨[], some ⟨.str "Admin", .str "ADMIN"⟩, .str "", none, none⟩
        (some ["ADMIN"]) ≠ .children ∧
      ProtectedRoute ⟨[], some ⟨.str "Admin", .str "ADMIN"⟩, .str "", none, none⟩
        (some ["ADMIN"]) ≠ .navigate "/" true) :=
  ⟨Or.inr (Or.inr rfl),
   ProtectedRoute_absent_token ⟨[], some ⟨.str "Admin", .str "ADMIN"⟩, .str "", none, none⟩
     (some ["ADMIN"]) (Or.inr (Or.inr rfl))⟩

/-- C2: with a non-empty token and a list of allowed roles, the guard returns
the children when `user?.tipo` is one of the roles and the redirect to "/"
when it is not; a null identity and an identity without `tipo` are not in any
list of roles, so they get the redirect to "/".  This holds for every list,
the non-empty ones in particular. -/
theorem ProtectedRoute_role_gate (s : AuthState) (T : String) (roles : List String)
    (hT : s.token = .str T) (hne : T ≠ "") :
    ((∃ r ∈ roles, userTipo s.user = .str r) →
      ProtectedRoute s (some roles) = .children) ∧
    ((¬ ∃ r ∈ roles, userTipo s.user = .str r) →
      ProtectedRoute s (some roles) = .navigate "/" true) ∧
    (s.user = none → ProtectedRoute s (some roles) = .navigate "/" true) ∧
    (∀ u, s.user = some u → u.tipo = .undefined →
      ProtectedRoute s (some roles) = .navigate "/" true) := by
  have ht : s.token.truthy = true := by rw [hT]; exact truthy_str T hne
  have hin : (∃ r ∈ roles, userTipo s.user = .str r) →
      ProtectedRoute s (some roles) = .children := by
    intro h
    have := (includes_map_str roles (userTipo s.user)).mpr h
    simp [ProtectedRoute, ht, this]
  have hout : (¬ ∃ r ∈ roles, userTipo s.user = .str r) →
      ProtectedRoute s (some roles) = .navigate "/" true := by
    intro h
    have : includes (roles.map JsVal.str) (userTipo s.user) = false := by
      rw [← Bool.not_eq_true, includes_map_str]; exact h
    simp [ProtectedRoute, ht, this]
  refine ⟨hin, hout, ?_, ?_⟩
  · intro hu
    apply hout
    rintro ⟨r, _, hr⟩
    rw [hu] at hr
    exact absurd hr (by simp [userTipo])
  · intro u hu hund
    apply hout
    rintro ⟨r, _, hr⟩
    rw [hu] at hr
    simp [userTipo, hund] at hr

theorem ProtectedRoute_role_gate_witness :
    (JsVal.str "T" = .str "T" ∧ "T" ≠ "") ∧
    ProtectedRoute ⟨[], some ⟨.str "a@b.com", .str "EDITOR"⟩, .str "T", none, none⟩
      (some ["ADMIN", "EDITOR"]) = .children ∧
    ProtectedRoute ⟨[], some ⟨.str "a@b.com", .str "READER"⟩, .str "T", none, none⟩
      (some ["ADMIN", "EDITOR"]) = .navigate "/" true ∧
    ProtectedRoute ⟨[], none, .str "T", none, none⟩
      (some ["ADMIN", "EDITOR"]) = .navigate "/" true :=
  ⟨⟨rfl, by decide⟩,
   (ProtectedRoute_role_gate ⟨[], some ⟨.str "a@b.com", .str "EDITOR"⟩, .str "T", none, none⟩
      "T" ["ADMIN", "EDITOR"] rfl (by decide)).1 ⟨"EDITOR", by simp, rfl⟩,
   (ProtectedRoute_role_gate ⟨[], some ⟨.str "a@b.com", .str "READER"⟩, .str "T", none, none⟩
      "T" ["ADMIN", "EDITOR"] rfl (by decide)).2.1 (by simp [userTipo]),
   (ProtectedRoute_role_gate ⟨[], none, .str "T", none, none⟩
      "T" ["ADMIN", "EDITOR"] rfl (by decide)).2.2.1 rfl⟩

/-- C3 (as the claim states it, refuted): with the non-empty token "T", the
placeholder identity and `allowedRoles = []` the guard returns the redirect to
"/", not the children. -/
theorem ProtectedRoute_empty_roles_counterexample :
    ("T" ≠ "") ∧
    ProtectedRoute
      ⟨[("token", "T")], some ⟨.str "Admin", .str "ADMIN"⟩, .str "T", some "Bearer T",
        some (.str "T")⟩ (some []) = .navigate "/" true ∧
    ProtectedRoute
      ⟨[("token", "T")], some ⟨.str "Admin", .str "ADMIN"⟩, .str "T", some "Bearer T",
        some (.str "T")⟩ (some []) ≠ .children := by
  decide

/-- C3 (amended): with a non-empty token and `allowedRoles = []` the guard
returns the redirect to "/" for every identity: an empty array is truthy and
includes no role. -/
theorem ProtectedRoute_empty_roles (s : AuthState) (T : String)
    (hT : s.token = .str T) (hne : T ≠ "") :
    ProtectedRoute s (some []) = .navigate "/" true := by
  have ht : s.token.truthy = true := by rw [hT]; exact truthy_str T hne
  simp [ProtectedRoute, ht, includes]

theorem ProtectedRoute_empty_roles_witness :
    (JsVal.str "T" = .str "T" ∧ "T" ≠ "") ∧
    ProtectedRoute ⟨[("token", "T")], some ⟨.str "Admin", .str "ADMIN"⟩, .str "T", none, none⟩
      (some []) = .navigate "/" true :=
  ⟨⟨rfl, by decide⟩,
   ProtectedRoute_empty_roles
     ⟨[("token", "T")], some ⟨.str "Admin", .str "ADMIN"⟩, .str "T", none, none⟩
     "T" rfl (by decide)⟩

/-- C4: with a non-empty token and `allowedRoles` omitted the guard returns
the children for every identity, a null one and one without `tipo` included. -/
theorem ProtectedRoute_no_roles (s : AuthState) (T : String)
    (hT : s.token = .str T) (hne : T ≠ "") :
    ProtectedRoute s none = .children := by
  have ht : s.token.truthy = true := by rw [hT]; exact truthy_str T hne
  simp [ProtectedRoute, ht]

theorem ProtectedRoute_no_roles_witness :
    (JsVal.str "T" = .str "T" ∧ "T" ≠ "") ∧
    ProtectedRoute ⟨[], none, .str "T", none, none⟩ none = .children ∧
    ProtectedRoute ⟨[], some ⟨.str "a@b.com", .undefined⟩, .str "T", none, none⟩ none
      = .children :=
  ⟨⟨rfl, by decide⟩,
   ProtectedRoute_no_roles ⟨[], none, .str "T", none, none⟩ "T" rfl (by decide),
   ProtectedRoute_no_roles ⟨[], some ⟨.str "a@b.com", .undefined⟩, .str "T", none, none⟩
     "T" rfl (by decide)⟩

/-! ## Session store -/

/-- C5: from every state, after `logout` the token is null, the identity is
null and `localStorage` has no "token" entry; this is still so after the
effect phase of the next render, and a provider mounted on that storage
starts with a null token and a null identity. -/
theorem logout_clears_session (s : AuthState) (authorization : Option String) :
    ((logout s).2.token = .null ∧ (logout s).2.user = none ∧
      Storage.getItem (logout s).2.localStorage "token" = .null) ∧
    ((runEffects (logout s).2).token = .null ∧ (runEffects (logout s).2).user = none ∧
      Storage.getItem (runEffects (logout s).2).localStorage "token" = .null) ∧
    ((AuthProvider (logout s).2.localStorage authorization).token = .null ∧
      (AuthProvider (logout s).2.localStorage authorization).user = none) := by
  have hget : Storage.getItem (logout s).2.localStorage "token" = .null := by
    rw [logout_snd]; exact Storage.getItem_removeItem _ _
  have htok : (logout s).2.token = .null := by rw [logout_snd]
  have husr : (logout s).2.user = none := by rw [logout_snd]
  have hfalsy : (logout s).2.token.truthy = false := by rw [htok]; rfl
  refine ⟨⟨htok, husr, hget⟩, ⟨?_, ?_, ?_⟩, ?_, rfl⟩
  · rw [runEffects_token, htok]
  · rw [runEffects_user_of_falsy _ hfalsy, husr]
  · rw [runEffects_localStorage, hget]
  · simpa [AuthProvider] using hget

/-- C6: `logout` always completes normally; a second `logout` leaves the whole
state (storage, token and identity included) as the first one left it, also
when the effect phase ran in between; and on a state with a null token, a null
identity and no "token" entry in storage `logout` changes nothing. -/
theorem logout_idempotent (s : AuthState) :
    (logout s).1 = .ok () ∧
    (logout (logout s).2).2 = (logout s).2 ∧
    (logout (runEffects (logout s).2)).2 = runEffects (logout s).2 ∧
    (s.token = .null → s.user = none → Storage.getItem s.localStorage "token" = .null →
      (logout s).2 = s) := by
  refine ⟨rfl, ?_, ?_, ?_⟩
  · rw [logout_snd (logout s).2, logout_snd s]
    simp [Storage.removeItem_removeItem]
  · have hfalsy : (logout s).2.token.truthy = false := by rw [logout_snd]; rfl
    rcases runEffects_of_falsy _ hfalsy with h | h <;> rw [h] <;>
      · rw [logout_snd, logout_snd]
        simp [Storage.removeItem_removeItem]
  · intro ht hu hg
    rw [logout_snd, Storage.removeItem_of_getItem_null _ _ hg]
    cases s
    simp_all

theorem logout_idempotent_witness :
    (logout ⟨[("userRole", "ADMIN")], none, .null, some "Bearer T", some .null⟩).1 = .ok () ∧
    (logout (logout ⟨[("userRole", "ADMIN")], none, .null, some "Bearer T", some .null⟩).2).2
      = (logout ⟨[("userRole", "ADMIN")], none, .null, some "Bearer T", some .null⟩).2 ∧
    (logout ⟨[("userRole", "ADMIN")], none, .null, some "Bearer T", some .null⟩).2
      = ⟨[("userRole", "ADMIN")], none, .null, some "Bearer T", some .null⟩ :=
  ⟨(logout_idempotent ⟨[("userRole", "ADMIN")], none, .null, some "Bearer T", some .null⟩).1,
   (logout_idempotent ⟨[("userRole", "ADMIN")], none, .null, some "Bearer T", some .null⟩).2.1,
   (logout_idempotent ⟨[("userRole", "ADMIN")], none, .null, some "Bearer T", some .null⟩).2.2.2
     rfl rfl (by decide)⟩

/-- C7: from every state and for every response of the login request, `login`
then `logout` then the guard with `allowedRoles = ["ADMIN"]` gives the
redirect to "/login" (so neither the redirect to "/" nor the children),
whether or not the effect phase ran after `login` and after `logout`. -/
theorem login_logout_guard (s : AuthState) (email : JsVal) (data : RespData) :
    ProtectedRoute (logout (login email (.resolved data) s).2).2 (some ["ADMIN"])
      = .navigate "/login" true ∧
    ProtectedRoute (logout (runEffects (login email (.resolved data) s).2)).2 (some ["ADMIN"])
      = .navigate "/login" true ∧
    ProtectedRoute (runEffects (logout (login email (.resolved data) s).2).2) (some ["ADMIN"])
      = .navigate "/login" true ∧
    ProtectedRoute (runEffects (logout (runEffects (login email (.resolved data) s).2)).2)
      (some ["ADMIN"]) = .navigate "/login" true :=
  ⟨(ProtectedRoute_after_logout _ _).1, (ProtectedRoute_after_logout _ _).1,
   (ProtectedRoute_after_logout _ _).2, (ProtectedRoute_after_logout _ _).2⟩

/-- C8: when the login request resolves with a body whose `token` is the string
T, `login` returns true, `localStorage` holds T under "token" and the token
state is T; the effect phase that follows changes neither. -/
theorem login_success_token (s : AuthState) (email : JsVal) (fs : Fields) (T : String)
    (hT : getProp fs "token" = .str T) :
    (login email (.resolved (.fields fs)) s).1 = .ok true ∧
    Storage.getItem (login email (.resolved (.fields fs)) s).2.localStorage "token" = .str T ∧
    (login email (.resolved (.fields fs)) s).2.token = .str T ∧
    Storage.getItem (runEffects (login email (.resolved (.fields fs)) s).2).localStorage "token"
      = .str T ∧
    (runEffects (login email (.resolved (.fields fs)) s).2).token = .str T := by
  have hget : Storage.getItem (login email (.resolved (.fields fs)) s).2.localStorage "token"
      = .str T := by
    rw [login_resolved_fields]
    simp only [Storage.getItem_setItem, hT, JsVal.toStr]
  have htok : (login email (.resolved (.fields fs)) s).2.token = .str T := by
    rw [login_resolved_fields]; exact hT
  refine ⟨rfl, hget, htok, ?_, ?_⟩
  · rw [runEffects_localStorage, hget]
  · rw [runEffects_token, htok]

theorem login_success_token_witness :
    getProp [("token", .str "T"), ("nome", .str "A"), ("tipo", .str "ADMIN")] "token"
      = .str "T" ∧
    (login (.str "a@b.com")
      (.resolved (.fields [("token", .str "T"), ("nome", .str "A"), ("tipo", .str "ADMIN")]))
      (AuthProvider [] none)).1 = .ok true ∧
    Storage.getItem (login (.str "a@b.com")
      (.resolved (.fields [("token", .str "T"), ("nome", .str "A"), ("tipo", .str "ADMIN")]))
      (AuthProvider [] none)).2.localStorage "token" = .str "T" ∧
    (login (.str "a@b.com")
      (.resolved (.fields [("token", .str "T"), ("nome", .str "A"), ("tipo", .str "ADMIN")]))
      (AuthProvider [] none)).2.token = .str "T" :=
  ⟨by decide,
   (login_success_token (AuthProvider [] none) (.str "a@b.com")
      [("token", .str "T"), ("nome", .str "A"), ("tipo", .str "ADMIN")] "T" (by decide)).1,
   (login_success_token (AuthProvider [] none) (.str "a@b.com")
      [("token", .str "T"), ("nome", .str "A"), ("tipo", .str "ADMIN")] "T" (by decide)).2.1,
   (login_success_token (AuthProvider [] none) (.str "a@b.com")
      [("token", .str "T"), ("nome", .str "A"), ("tipo", .str "ADMIN")] "T" (by decide)).2.2.1⟩

/-- C9 (the code at the failing input): a provider mounted on an empty storage,
then `login("a@b.com", ...)` answered with token "T", nome "A" and tipo
"READER".  Right after `login` the identity has `nome` "a@b.com" and no
`tipo`; after the effect phase it is the placeholder with `nome` "Admin" and
`tipo` "ADMIN".  In neither state is the name "A" or the role "READER". -/
theorem login_identity_ignores_payload :
    (login (.str "a@b.com")
      (.resolved (.fields [("token", .str "T"), ("nome", .str "A"), ("tipo", .str "READER")]))
      (runEffects (AuthProvider [] none))).2.user
      = some { nome := .str "a@b.com", tipo := .undefined } ∧
    (runEffects (login (.str "a@b.com")
      (.resolved (.fields [("token", .str "T"), ("nome", .str "A"), ("tipo", .str "READER")]))
      (runEffects (AuthProvider [] none))).2).user
      = some { nome := .str "Admin", tipo := .str "ADMIN" } := by
  decide

/-- C10: when the login request is rejected, with or without a response (a
rejected credential or a network error), `login` returns false as a normal
value and the state it leaves is the state it started from. -/
theorem login_failure_unchanged (s : AuthState) (email : JsVal) (response : Option RespData) :
    login email (.rejected response) s = (.ok false, s) := rfl

/-! ## Login view: failures -/

/-- C11: when the request of the Login view is rejected, the storage and the
list of navigations are left as they were, and the error shown is the `erro`
of the error's response body when that is a non-empty string, and the generic
message when there is no response, no body, or a missing or empty `erro`. -/
theorem handleLogin_failure_message (v : LoginView) (response : Option RespData) :
    (handleLogin (.rejected response) v).2.localStorage = v.localStorage ∧
    (handleLogin (.rejected response) v).2.navigations = v.navigations ∧
    (∀ fs e, response = some (.fields fs) → getProp fs "erro" = .str e → e ≠ "" →
      (handleLogin (.rejected response) v).2.error = .str e) ∧
    (response = none →
      (handleLogin (.rejected response) v).2.error = .str genericLoginError) ∧
    (response = some .nullish →
      (handleLogin (.rejected response) v).2.error = .str genericLoginError) ∧
    (∀ fs, response = some (.fields fs) → (getProp fs "erro").truthy = false →
      (handleLogin (.rejected response) v).2.error = .str genericLoginError) := by
  rw [handleLogin_rejected]
  refine ⟨rfl, rfl, ?_, ?_, ?_, ?_⟩
  · intro fs e hr he hne
    subst hr
    simp [errResponseErro, jsOr, he, JsVal.truthy, hne]
  · intro hr
    subst hr
    rfl
  · intro hr
    subst hr
    rfl
  · intro fs hr hf
    subst hr
    simp [errResponseErro, jsOr, hf]

theorem handleLogin_failure_message_witness :
    (handleLogin (.rejected (some (.fields [("erro", .str "Conta bloqueada")])))
      ⟨[("k", "v")], .str "", false, []⟩).2.localStorage = [("k", "v")] ∧
    (handleLogin (.rejected (some (.fields [("erro", .str "Conta bloqueada")])))
      ⟨[("k", "v")], .str "", false, []⟩).2.navigations = [] ∧
    (handleLogin (.rejected (some (.fields [("erro", .str "Conta bloqueada")])))
      ⟨[("k", "v")], .str "", false, []⟩).2.error = .str "Conta bloqueada" ∧
    (handleLogin (.rejected none) ⟨[("k", "v")], .str "", false, []⟩).2.error
      = .str "Email ou senha incorretos. Tente novamente." ∧
    (handleLogin (.rejected (some (.fields [("erro", .str "")])))
      ⟨[("k", "v")], .str "", false, []⟩).2.error
      = .str "Email ou senha incorretos. Tente novamente." :=
  ⟨(handleLogin_failure_message ⟨[("k", "v")], .str "", false, []⟩
      (some (.fields [("erro", .str "Conta bloqueada")]))).1,
   (handleLogin_failure_message ⟨[("k", "v")], .str "", false, []⟩
      (some (.fields [("erro", .str "Conta bloqueada")]))).2.1,
   (handleLogin_failure_message ⟨[("k", "v")], .str "", false, []⟩
      (some (.fields [("erro", .str "Conta bloqueada")]))).2.2.1
      [("erro", .str "Conta bloqueada")] "Conta bloqueada" rfl (by decide) (by decide),
   (handleLogin_failure_message ⟨[("k", "v")], .str "", false, []⟩ none).2.2.2.1 rfl,
   (handleLogin_failure_message ⟨[("k", "v")], .str "", false, []⟩
      (some (.fields [("erro", .str "")]))).2.2.2.2.2 [("erro", .str "")] rfl (by decide)⟩

/-! ## Session store: malformed responses and hydration -/

/-- C12 (the code at the failing input): a provider mounted on an empty
storage, then `login` answered with a body that has `nome` "A" and no `token`.
`login` returns true and stores the string "undefined" under "token"; a
provider mounted later on that storage reads a truthy token, gets the
placeholder identity from the effect, and the guard with `["ADMIN"]` returns
the children. -/
theorem login_without_token_fails_open :
    (login (.str "a@b.com") (.resolved (.fields [("nome", .str "A")]))
      (runEffects (AuthProvider [] none))).1 = .ok true ∧
    Storage.getItem (login (.str "a@b.com") (.resolved (.fields [("nome", .str "A")]))
      (runEffects (AuthProvider [] none))).2.localStorage "token" = .str "undefined" ∧
    (runEffects (AuthProvider (login (.str "a@b.com") (.resolved (.fields [("nome", .str "A")]))
      (runEffects (AuthProvider [] none))).2.localStorage none)).token = .str "undefined" ∧
    (runEffects (AuthProvider (login (.str "a@b.com") (.resolved (.fields [("nome", .str "A")]))
      (runEffects (AuthProvider [] none))).2.localStorage none)).user
      = some { nome := .str "Admin", tipo := .str "ADMIN" } ∧
    ProtectedRoute
      (runEffects (AuthProvider (login (.str "a@b.com")
        (.resolved (.fields [("nome", .str "A")]))
        (runEffects (AuthProvider [] none))).2.localStorage none))
      (some ["ADMIN"]) = .children := by
  refine ⟨rfl, ?_⟩
  decide

/-- C13: a provider mounted on a storage without a "token" entry starts with
a null token and a null identity; after the effect phase both are still null,
the header of the HTTP client is what it was before the mount, the storage is
untouched, and the effect sends no request. -/
theorem hydrate_without_token (ls : Storage) (authorization : Option String)
    (h : Storage.getItem ls "token" = .null) :
    ((AuthProvider ls authorization).token = .null ∧
      (AuthProvider ls authorization).user = none) ∧
    ((runEffects (AuthProvider ls authorization)).token = .null ∧
      (runEffects (AuthProvider ls authorization)).user = none ∧
      (runEffects (AuthProvider ls authorization)).authorization = authorization ∧
      (runEffects (AuthProvider ls authorization)).localStorage = ls) ∧
    Action.requests .effects = [] := by
  have hf : (Storage.getItem ls "token").truthy = false := by rw [h]; rfl
  rw [runEffects_AuthProvider_of_falsy ls authorization hf]
  exact ⟨⟨h, rfl⟩, ⟨h, rfl, rfl, rfl⟩, rfl⟩

theorem hydrate_without_token_witness :
    Storage.getItem [("userRole", "ADMIN")] "token" = .null ∧
    (runEffects (AuthProvider [("userRole", "ADMIN")] none)).token = .null ∧
    (runEffects (AuthProvider [("userRole", "ADMIN")] none)).user = none ∧
    (runEffects (AuthProvider [("userRole", "ADMIN")] none)).authorization = none :=
  ⟨by decide,
   (hydrate_without_token [("userRole", "ADMIN")] none (by decide)).2.1.1,
   (hydrate_without_token [("userRole", "ADMIN")] none (by decide)).2.1.2.1,
   (hydrate_without_token [("userRole", "ADMIN")] none (by decide)).2.1.2.2.1⟩

/-- C14 (the code at the failing input): a provider mounted on a storage that
holds the token "expired", which the backend would reject.  The effect sends
no request; after it the token is still "expired", the identity is the
placeholder and the storage still holds the token. -/
theorem hydrate_keeps_rejected_token :
    Action.requests .effects = [] ∧
    (runEffects (AuthProvider [("token", "expired")] none)).token = .str "expired" ∧
    (runEffects (AuthProvider [("token", "expired")] none)).user
      = some { nome := .str "Admin", tipo := .str "ADMIN" } ∧
    Storage.getItem (runEffects (AuthProvider [("token", "expired")] none)).localStorage "token"
      = .str "expired" := by
  decide

/-! ## Session store: invariants over its reachable states -/

/-- C15 (as the claim states it, refuted): a provider mounted on a storage
that holds the empty string under "token".  After the effect phase the token
is the empty string, which is not null, and the identity is null: the effect
sets an identity only for a truthy token. -/
theorem identity_iff_token_counterexample :
    (runEffects (AuthProvider [("token", "")] none)).token = .str "" ∧
    (runEffects (AuthProvider [("token", "")] none)).user = none ∧
    ¬ ((runEffects (AuthProvider [("token", "")] none)).user ≠ none ↔
        (runEffects (AuthProvider [("token", "")] none)).token ≠ .null) := by
  decide

/-- C15 (amended): start from the state after the mount and its effect phase,
on any storage; after any sequence of effect phases, logins and logouts in
which every resolved login carries a truthy token, the identity is non-null
if and only if the token is truthy. -/
theorem identity_iff_token_after_effect (ls : Storage) (authorization : Option String)
    (actions : List Action) (hwf : ∀ a ∈ actions, a.tokenPresent = true) :
    (run actions (runEffects (AuthProvider ls authorization))).user ≠ none ↔
      (run actions (runEffects (AuthProvider ls authorization))).token.truthy = true := by
  apply run_identity_iff_token actions _ hwf
  by_cases ht : (Storage.getItem ls "token").truthy = true
  · rw [runEffects_AuthProvider_of_truthy ls authorization ht]
    simp [ht]
  · have hf : (Storage.getItem ls "token").truthy = false := by simpa using ht
    rw [runEffects_AuthProvider_of_falsy ls authorization hf]
    simp [hf]

theorem identity_iff_token_after_effect_witness :
    (∀ a ∈ [Action.login (.str "a@b.com") (.resolved (.fields [("token", .str "T")])),
        Action.effects, Action.login (.str "a@b.com") (.rejected none), Action.logout],
      a.tokenPresent = true) ∧
    ((run [Action.login (.str "a@b.com") (.resolved (.fields [("token", .str "T")])),
        Action.effects, Action.login (.str "a@b.com") (.rejected none), Action.logout]
        (runEffects (AuthProvider [("token", "old")] none))).user ≠ none ↔
      (run [Action.login (.str "a@b.com") (.resolved (.fields [("token", .str "T")])),
        Action.effects, Action.login (.str "a@b.com") (.rejected none), Action.logout]
        (runEffects (AuthProvider [("token", "old")] none))).token.truthy = true) :=
  ⟨by decide,
   identity_iff_token_after_effect [("token", "old")] none
     [Action.login (.str "a@b.com") (.resolved (.fields [("token", .str "T")])),
       Action.effects, Action.login (.str "a@b.com") (.rejected none), Action.logout]
     (by decide)⟩

/-- C16 (the code at the failing input): a provider mounted on a storage that
holds the token "T".  On the first render the identity is still null, so the
guard with `["ADMIN"]` returns the redirect to "/"; only after the effect
phase does it return the children. -/
theorem first_guard_decision_redirects_home :
    (AuthProvider [("token", "T")] none).user = none ∧
    ProtectedRoute (AuthProvider [("token", "T")] none) (some ["ADMIN"])
      = .navigate "/" true ∧
    ProtectedRoute (runEffects (AuthProvider [("token", "T")] none)) (some ["ADMIN"])
      = .children := by
  decide

/-- C17: for every non-empty string T stored under "token" at the mount, after
the effect phase the identity is the placeholder with `nome` "Admin" and
`tipo` "ADMIN", the effect has sent no request, and the guard with
`["ADMIN"]` returns the children. -/
theorem hydrate_placeholder_admin (ls : Storage) (authorization : Option String) (T : String)
    (hT : Storage.getItem ls "token" = .str T) (hne : T ≠ "") :
    (runEffects (AuthProvider ls authorization)).user
      = some { nome := .str "Admin", tipo := .str "ADMIN" } ∧
    Action.requests .effects = [] ∧
    ProtectedRoute (runEffects (AuthProvider ls authorization)) (some ["ADMIN"])
      = .children := by
  have ht : (Storage.getItem ls "token").truthy = true := by rw [hT]; exact truthy_str T hne
  rw [runEffects_AuthProvider_of_truthy ls authorization ht]
  refine ⟨rfl, rfl, ?_⟩
  simp [ProtectedRoute, ht, includes, userTipo]

theorem hydrate_placeholder_admin_witness :
    (Storage.getItem [("token", "not-a-token")] "token" = .str "not-a-token" ∧
      "not-a-token" ≠ "") ∧
    (runEffects (AuthProvider [("token", "not-a-token")] none)).user
      = some { nome := .str "Admin", tipo := .str "ADMIN" } ∧
    ProtectedRoute (runEffects (AuthProvider [("token", "not-a-token")] none)) (some ["ADMIN"])
      = .children :=
  ⟨⟨by decide, by decide⟩,
   (hydrate_placeholder_admin [("token", "not-a-token")] none "not-a-token"
      (by decide) (by decide)).1,
   (hydrate_placeholder_admin [("token", "not-a-token")] none "not-a-token"
      (by decide) (by decide)).2.2⟩

/-! ## Login view: what a successful login persists -/

/-- C18 (as the claim states it, refuted): from an empty storage, a login
through the Login view answered with token "T", nome "A", tipo "ADMIN",
email "a@b.com" and id 7 leaves all of "userName", "userRole", "userEmail"
and "userId" in the storage. -/
theorem handleLogin_persists_identity_counterexample :
    Storage.getItem (handleLogin (.resolved (.fields [("token", .str "T"), ("nome", .str "A"),
        ("tipo", .str "ADMIN"), ("email", .str "a@b.com"), ("id", .num 7)]))
      ⟨[], .str "", false, []⟩).2.localStorage "userName" = .str "A" ∧
    Storage.getItem (handleLogin (.resolved (.fields [("token", .str "T"), ("nome", .str "A"),
        ("tipo", .str "ADMIN"), ("email", .str "a@b.com"), ("id", .num 7)]))
      ⟨[], .str "", false, []⟩).2.localStorage "userRole" = .str "ADMIN" ∧
    Storage.getItem (handleLogin (.resolved (.fields [("token", .str "T"), ("nome", .str "A"),
        ("tipo", .str "ADMIN"), ("email", .str "a@b.com"), ("id", .num 7)]))
      ⟨[], .str "", false, []⟩).2.localStorage "userEmail" = .str "a@b.com" ∧
    Storage.getItem (handleLogin (.resolved (.fields [("token", .str "T"), ("nome", .str "A"),
        ("tipo", .str "ADMIN"), ("email", .str "a@b.com"), ("id", .num 7)]))
      ⟨[], .str "", false, []⟩).2.localStorage "userId" = .str "7" := by
  decide

/-- C18 (amended): when the request of the Login view resolves with an object,
the storage afterwards holds the string forms of the response's `token`,
`nome`, `tipo`, `email` and `id` under "token", "userName", "userRole",
"userEmail" and "userId", and every other key reads as before. -/
theorem handleLogin_success_storage (v : LoginView) (fs : Fields) :
    Storage.getItem (handleLogin (.resolved (.fields fs)) v).2.localStorage "token"
      = .str (getProp fs "token").toStr ∧
    Storage.getItem (handleLogin (.resolved (.fields fs)) v).2.localStorage "userName"
      = .str (getProp fs "nome").toStr ∧
    Storage.getItem (handleLogin (.resolved (.fields fs)) v).2.localStorage "userRole"
      = .str (getProp fs "tipo").toStr ∧
    Storage.getItem (handleLogin (.resolved (.fields fs)) v).2.localStorage "userEmail"
      = .str (getProp fs "email").toStr ∧
    Storage.getItem (handleLogin (.resolved (.fields fs)) v).2.localStorage "userId"
      = .str (getProp fs "id").toStr ∧
    (∀ k, k ≠ "token" → k ≠ "userName" → k ≠ "userRole" → k ≠ "userEmail" → k ≠ "userId" →
      Storage.getItem (handleLogin (.resolved (.fields fs)) v).2.localStorage k
        = Storage.getItem v.localStorage k) := by
  rw [handleLogin_resolved_localStorage]
  refine ⟨?_, ?_, ?_, ?_, ?_, ?_⟩
  · rw [Storage.getItem_setItem_of_ne _ _ _ _ (by decide),
      Storage.getItem_setItem_of_ne _ _ _ _ (by decide),
      Storage.getItem_setItem_of_ne _ _ _ _ (by decide),
      Storage.getItem_setItem_of_ne _ _ _ _ (by decide), Storage.getItem_setItem]
  · rw [Storage.getItem_setItem_of_ne _ _ _ _ (by decide),
      Storage.getItem_setItem_of_ne _ _ _ _ (by decide),
      Storage.getItem_setItem_of_ne _ _ _ _ (by decide), Storage.getItem_setItem]
  · rw [Storage.getItem_setItem_of_ne _ _ _ _ (by decide),
      Storage.getItem_setItem_of_ne _ _ _ _ (by decide), Storage.getItem_setItem]
  · rw [Storage.getItem_setItem_of_ne _ _ _ _ (by decide), Storage.getItem_setItem]
  · rw [Storage.getItem_setItem]
  · intro k h1 h2 h3 h4 h5
    rw [Storage.getItem_setItem_of_ne _ _ _ _ h5, Storage.getItem_setItem_of_ne _ _ _ _ h4,
      Storage.getItem_setItem_of_ne _ _ _ _ h3, Storage.getItem_setItem_of_ne _ _ _ _ h2,
      Storage.getItem_setItem_of_ne _ _ _ _ h1]

theorem handleLogin_success_storage_witness :
    Storage.getItem (handleLogin (.resolved (.fields [("token", .str "T"), ("tipo", .str "READER")]))
      ⟨[("theme", "dark")], .str "", false, []⟩).2.localStorage "token" = .str "T" ∧
    Storage.getItem (handleLogin (.resolved (.fields [("token", .str "T"), ("tipo", .str "READER")]))
      ⟨[("theme", "dark")], .str "", false, []⟩).2.localStorage "userRole" = .str "READER" ∧
    Storage.getItem (handleLogin (.resolved (.fields [("token", .str "T"), ("tipo", .str "READER")]))
      ⟨[("theme", "dark")], .str "", false, []⟩).2.localStorage "theme" = .str "dark" :=
  ⟨(handleLogin_success_storage ⟨[("theme", "dark")], .str "", false, []⟩
      [("token", .str "T"), ("tipo", .str "READER")]).1,
   (handleLogin_success_storage ⟨[("theme", "dark")], .str "", false, []⟩
      [("token", .str "T"), ("tipo", .str "READER")]).2.2.1,
   (handleLogin_success_storage ⟨[("theme", "dark")], .str "", false, []⟩
      [("token", .str "T"), ("tipo", .str "READER")]).2.2.2.2.2 "theme"
      (by decide) (by decide) (by decide) (by decide) (by decide)⟩

/-! ## Authorization header and what the guard depends on -/

/-- C19: in every state reached from a mount by effect phases, logins and
logouts, if the token is a non-empty string T (read from the storage at the
mount, or set by a login), then after the effect phase the header of the HTTP
client is "Bearer " followed by T. -/
theorem authorization_header_bearer (ls : Storage) (authorization : Option String)
    (actions : List Action) (T : String)
    (hT : (run actions (AuthProvider ls authorization)).token = .str T) (hne : T ≠ "") :
    (runEffects (run actions (AuthProvider ls authorization))).authorization
      = some ("Bearer " ++ T) := by
  have hinv := run_header actions (AuthProvider ls authorization)
    (by intro t ht; simp [AuthProvider] at ht)
  have htr : (JsVal.str T).truthy = true := truthy_str T hne
  generalize run actions (AuthProvider ls authorization) = s at hT hinv
  unfold runEffects
  by_cases hd : s.effectDeps = some s.token
  · rw [if_pos hd]
    rw [hT] at hd
    exact hinv (.str T) hd htr
  · rw [if_neg hd]
    simp [tokenEffect, hT, htr, JsVal.toStr]

theorem authorization_header_bearer_witness :
    (((run [] (AuthProvider [("token", "T")] none)).token = .str "T" ∧ "T" ≠ "") ∧
      (runEffects (run [] (AuthProvider [("token", "T")] none))).authorization
        = some "Bearer T") ∧
    (((run [Action.effects, Action.logout, Action.effects,
          Action.login (.str "a@b.com") (.resolved (.fields [("token", .str "T2")]))]
        (AuthProvider [("token", "T")] none)).token = .str "T2" ∧ "T2" ≠ "") ∧
      (runEffects (run [Action.effects, Action.logout, Action.effects,
          Action.login (.str "a@b.com") (.resolved (.fields [("token", .str "T2")]))]
        (AuthProvider [("token", "T")] none))).authorization = some "Bearer T2") :=
  ⟨⟨⟨by decide, by decide⟩,
    authorization_header_bearer [("token", "T")] none [] "T" (by decide) (by decide)⟩,
   ⟨⟨by decide, by decide⟩,
    authorization_header_bearer [("token", "T")] none
      [Action.effects, Action.logout, Action.effects,
        Action.login (.str "a@b.com") (.resolved (.fields [("token", .str "T2")]))]
      "T2" (by decide) (by decide)⟩⟩

/-- C20: two sessions whose tokens are both truthy or both falsy and whose
`user?.tipo` agree get the same decision of the guard for the same
`allowedRoles`, whatever their `nome`, their storage (a "userRole" entry
included) and the rest of their state. -/
theorem ProtectedRoute_depends_only_on (s1 s2 : AuthState) (allowedRoles : Option (List String))
    (ht : s1.token.truthy = s2.token.truthy) (hr : userTipo s1.user = userTipo s2.user) :
    ProtectedRoute s1 allowedRoles = ProtectedRoute s2 allowedRoles := by
  simp only [ProtectedRoute, ht, hr]

theorem ProtectedRoute_depends_only_on_witness :
    ((JsVal.str "T1").truthy = (JsVal.str "T2").truthy ∧
      userTipo (some ⟨.str "Ana", .str "READER"⟩) = userTipo (some ⟨.str "Bia", .str "READER"⟩)) ∧
    ProtectedRoute ⟨[("userRole", "ADMIN")], some ⟨.str "Ana", .str "READER"⟩, .str "T1",
        none, none⟩ (some ["ADMIN"])
      = ProtectedRoute ⟨[("userRole", "READER")], some ⟨.str "Bia", .str "READER"⟩, .str "T2",
        some "Bearer T2", some (.str "T2")⟩ (some ["ADMIN"]) :=
  ⟨⟨by decide, rfl⟩,
   ProtectedRoute_depends_only_on
     ⟨[("userRole", "ADMIN")], some ⟨.str "Ana", .str "READER"⟩, .str "T1", none, none⟩
     ⟨[("userRole", "READER")], some ⟨.str "Bia", .str "READER"⟩, .str "T2",
       some "Bearer T2", some (.str "T2")⟩
     (some ["ADMIN"]) (by decide) rfl⟩

/-! ## Navigation: Login view, route table and guard -/

/-- C21: when the request of the Login view resolves with an object, the
handler navigates once: to "/admin/dashboard" if `tipo` is exactly "ADMIN",
"EDITOR" or "REDATOR", and to "/" for every other `tipo` ("READER", a missing
one, another letter case). -/
theorem handleLogin_navigation (v : LoginView) (fs : Fields) :
    ((getProp fs "tipo" = .str "ADMIN" ∨ getProp fs "tipo" = .str "EDITOR" ∨
        getProp fs "tipo" = .str "REDATOR") →
      (handleLogin (.resolved (.fields fs)) v).2.navigations
        = v.navigations ++ ["/admin/dashboard"]) ∧
    (¬ (getProp fs "tipo" = .str "ADMIN" ∨ getProp fs "tipo" = .str "EDITOR" ∨
        getProp fs "tipo" = .str "REDATOR") →
      (handleLogin (.resolved (.fields fs)) v).2.navigations = v.navigations ++ ["/"]) := by
  constructor
  · intro hc
    simp only [handleLogin, handleLoginTry, hc, if_true]
  · intro hc
    simp only [handleLogin, handleLoginTry, hc, if_false]

theorem handleLogin_navigation_witness :
    (handleLogin (.resolved (.fields [("token", .str "T"), ("tipo", .str "EDITOR")]))
      ⟨[], .str "", false, []⟩).2.navigations = ["/admin/dashboard"] ∧
    (handleLogin (.resolved (.fields [("token", .str "T"), ("tipo", .str "READER")]))
      ⟨[], .str "", false, []⟩).2.navigations = ["/"] ∧
    (handleLogin (.resolved (.fields [("token", .str "T"), ("tipo", .str "admin")]))
      ⟨[], .str "", false, []⟩).2.navigations = ["/"] ∧
    (handleLogin (.resolved (.fields [("token", .str "T")]))
      ⟨[], .str "", false, []⟩).2.navigations = ["/"] :=
  ⟨(handleLogin_navigation ⟨[], .str "", false, []⟩
      [("token", .str "T"), ("tipo", .str "EDITOR")]).1 (by decide),
   (handleLogin_navigation ⟨[], .str "", false, []⟩
      [("token", .str "T"), ("tipo", .str "READER")]).2 (by decide),
   (handleLogin_navigation ⟨[], .str "", false, []⟩
      [("token", .str "T"), ("tipo", .str "admin")]).2 (by decide),
   (handleLogin_navigation ⟨[], .str "", false, []⟩ [("token", .str "T")]).2 (by decide)⟩

/-- C22 (the code at the failing input): the route table maps the four admin
paths to their components without reading any session, so a visitor with an
empty storage, for whom the guard would return the redirect to "/login", gets
the Dashboard at "/admin/dashboard". -/
theorem AppRouter_admin_routes_unguarded :
    AppRouter "/admin/dashboard" = some .Dashboard ∧
    AppRouter "/admin/artigos/novo" = some .NovaNoticia ∧
    AppRouter "/admin/artigos/editar/7" = some .EditarNoticia ∧
    AppRouter "/admin/categorias" = some .AdminCategorias ∧
    (AuthProvider [] none).token = .null ∧
    ProtectedRoute (AuthProvider [] none) (some ["ADMIN", "EDITOR", "REDATOR"])
      = .navigate "/login" true := by
  decide

/-- C24 (the code at the failing input): for a session without token the guard
returns the redirect to "/login"; the route table has no route for "/login",
the Login view being at "/admin/login". -/
theorem ProtectedRoute_login_path_unrouted :
    ProtectedRoute (AuthProvider [] none) none = .navigate "/login" true ∧
    AppRouter "/login" = none ∧
    AppRouter "/admin/login" = some .Login := by
  decide

/-- C25: `logout` does not touch the header of the HTTP client, and neither
does the effect phase that follows it: for a session whose header is
"Bearer T" (its token being T or anything else), afterwards the header is
still "Bearer T" while the token and the identity are null. -/
theorem logout_keeps_header (s : AuthState) (T : String)
    (hh : s.authorization = some ("Bearer " ++ T)) :
    (logout s).2.authorization = some ("Bearer " ++ T) ∧
    (runEffects (logout s).2).authorization = some ("Bearer " ++ T) ∧
    (runEffects (logout s).2).token = .null ∧
    (runEffects (logout s).2).user = none := by
  have hfalsy : (logout s).2.token.truthy = false := by rw [logout_snd]; rfl
  have h1 : (logout s).2.authorization = some ("Bearer " ++ T) := by rw [logout_snd]; exact hh
  refine ⟨h1, ?_, ?_, ?_⟩
  · rcases runEffects_of_falsy _ hfalsy with h | h <;> rw [h] <;> exact h1
  · rw [runEffects_token, logout_snd]
  · rw [runEffects_user_of_falsy _ hfalsy, logout_snd]

theorem logout_keeps_header_witness :
    ((runEffects (AuthProvider [("token", "T")] none)).token = .str "T" ∧
      (runEffects (AuthProvider [("token", "T")] none)).authorization
        = some ("Bearer " ++ "T")) ∧
    (runEffects (logout (runEffects (AuthProvider [("token", "T")] none))).2).authorization
      = some ("Bearer " ++ "T") ∧
    (runEffects (logout (runEffects (AuthProvider [("token", "T")] none))).2).token = .null :=
  ⟨⟨by decide, by decide⟩,
   (logout_keeps_header (runEffects (AuthProvider [("token", "T")] none)) "T"
      (by decide)).2.1,
   (logout_keeps_header (runEffects (AuthProvider [("token", "T")] none)) "T"
      (by decide)).2.2.1⟩

/-! ## Cadastro view -/

/-- C23: when the two passwords agree and the register request resolves, the
handler navigates once, to "/admin/login" (so not to the dashboard), and
leaves the storage as it was, the "token" entry included; whatever the
outcome of the request, the handler never writes the storage. -/
theorem handleCadastro_success (v : CadastroView) (data : RespData)
    (h : v.senha = v.confirmarSenha) :
    (handleCadastro (.resolved data) v).2.navigations = v.navigations ++ ["/admin/login"] ∧
    (handleCadastro (.resolved data) v).2.localStorage = v.localStorage ∧
    Storage.getItem (handleCadastro (.resolved data) v).2.localStorage "token"
      = Storage.getItem v.localStorage "token" ∧
    (∀ post, (handleCadastro post v).2.localStorage = v.localStorage) := by
  have hall : ∀ post, (handleCadastro post v).2.localStorage = v.localStorage := by
    intro post
    cases post <;> simp [handleCadastro, handleCadastroTry, h]
  refine ⟨?_, hall _, by rw [hall], hall⟩
  simp [handleCadastro, handleCadastroTry, h]

theorem handleCadastro_success_witness :
    ("s3nha" = "s3nha") ∧
    (handleCadastro (.resolved (.fields [("id", .num 1)]))
      ⟨[], "Ana", "ana@b.com", "s3nha", "s3nha", .str "", false, [], []⟩).2.navigations
      = ["/admin/login"] ∧
    Storage.getItem (handleCadastro (.resolved (.fields [("id", .num 1)]))
      ⟨[], "Ana", "ana@b.com", "s3nha", "s3nha", .str "", false, [], []⟩).2.localStorage "token"
      = .null :=
  ⟨rfl,
   (handleCadastro_success ⟨[], "Ana", "ana@b.com", "s3nha", "s3nha", .str "", false, [], []⟩
      (.fields [("id", .num 1)]) rfl).1,
   (handleCadastro_success ⟨[], "Ana", "ana@b.com", "s3nha", "s3nha", .str "", false, [], []⟩
      (.fields [("id", .num 1)]) rfl).2.2.1⟩

/-- C30: when `senha` differs from `confirmarSenha` the handler sets the error
"As senhas não correspondem.", sends no request and does not navigate; when
they are equal it sends one POST to the register endpoint whose body is
exactly `nome`, `email` and `senha`. -/
theorem handleCadastro_password_check (v : CadastroView) (post : PostOutcome) :
    (v.senha ≠ v.confirmarSenha →
      (handleCadastro post v).2.error = .str "As senhas não correspondem." ∧
      (handleCadastro post v).2.requests = v.requests ∧
      (handleCadastro post v).2.navigations = v.navigations) ∧
    (v.senha = v.confirmarSenha →
      (handleCadastro post v).2.requests = v.requests ++
        [{ method := "POST"
           url := "http://localhost:8081/api/auth/register"
           body := [("nome", .str v.nome), ("email", .str v.email), ("senha", .str v.senha)]
           headers := [] }]) := by
  constructor
  · intro h
    simp [handleCadastro, h]
  · intro h
    cases post <;> simp [handleCadastro, handleCadastroTry, h]

theorem handleCadastro_password_check_witness :
    ("abc" ≠ "abd") ∧
    (handleCadastro (.resolved .nullish)
      ⟨[], "Ana", "ana@b.com", "abc", "abd", .str "", false, [], []⟩).2.error
      = .str "As senhas não correspondem." ∧
    (handleCadastro (.resolved .nullish)
      ⟨[], "Ana", "ana@b.com", "abc", "abd", .str "", false, [], []⟩).2.requests = [] ∧
    (handleCadastro (.resolved .nullish)
      ⟨[], "Ana", "ana@b.com", "abc", "abd", .str "", false, [], []⟩).2.navigations = [] ∧
    (handleCadastro (.resolved .nullish)
      ⟨[], "Ana", "ana@b.com", "abc", "abc", .str "", false, [], []⟩).2.requests
      = [⟨"POST", "http://localhost:8081/api/auth/register",
          [("nome", .str "Ana"), ("email", .str "ana@b.com"), ("senha", .str "abc")], []⟩] :=
  ⟨by decide,
   ((handleCadastro_password_check
      ⟨[], "Ana", "ana@b.com", "abc", "abd", .str "", false, [], []⟩
      (.resolved .nullish)).1 (by decide)).1,
   ((handleCadastro_password_check
      ⟨[], "Ana", "ana@b.com", "abc", "abd", .str "", false, [], []⟩
      (.resolved .nullish)).1 (by decide)).2.1,
   ((handleCadastro_password_check
      ⟨[], "Ana", "ana@b.com", "abc", "abd", .str "", false, [], []⟩
      (.resolved .nullish)).1 (by decide)).2.2,
   (handleCadastro_password_check
      ⟨[], "Ana", "ana@b.com", "abc", "abc", .str "", false, [], []⟩
      (.resolved .nullish)).2 rfl⟩

/-! ## Dashboard: the "Sair" button and the search -/

/-- C26: the "Sair" button of the Dashboard removes the "token" entry of the
storage, leaves every other key as it reads, and navigates to
"/admin/login"; after a login through the Login view, "userName", "userRole",
"userEmail" and "userId" still hold what that login wrote. -/
theorem sairOnClick_removes_only_token (v : DashboardView) :
    Storage.getItem (sairOnClick v).localStorage "token" = .null ∧
    (∀ k, k ≠ "token" →
      Storage.getItem (sairOnClick v).localStorage k = Storage.getItem v.localStorage k) ∧
    (sairOnClick v).navigations = v.navigations ++ ["/admin/login"] ∧
    (∀ (lv : LoginView) (fs : Fields),
      v.localStorage = (handleLogin (.resolved (.fields fs)) lv).2.localStorage →
      Storage.getItem (sairOnClick v).localStorage "userName" = .str (getProp fs "nome").toStr ∧
      Storage.getItem (sairOnClick v).localStorage "userRole" = .str (getProp fs "tipo").toStr ∧
      Storage.getItem (sairOnClick v).localStorage "userEmail"
        = .str (getProp fs "email").toStr ∧
      Storage.getItem (sairOnClick v).localStorage "userId" = .str (getProp fs "id").toStr) := by
  have hother : ∀ k, k ≠ "token" →
      Storage.getItem (sairOnClick v).localStorage k = Storage.getItem v.localStorage k :=
    fun k hk => Storage.getItem_removeItem_of_ne v.localStorage "token" k hk
  refine ⟨Storage.getItem_removeItem v.localStorage "token", hother, rfl, ?_⟩
  intro lv fs hls
  rw [hother _ (by decide), hother _ (by decide), hother _ (by decide), hother _ (by decide),
    hls, handleLogin_resolved_localStorage]
  refine ⟨?_, ?_, ?_, ?_⟩
  · rw [Storage.getItem_setItem_of_ne _ _ _ _ (by decide),
      Storage.getItem_setItem_of_ne _ _ _ _ (by decide),
      Storage.getItem_setItem_of_ne _ _ _ _ (by decide), Storage.getItem_setItem]
  · rw [Storage.getItem_setItem_of_ne _ _ _ _ (by decide),
      Storage.getItem_setItem_of_ne _ _ _ _ (by decide), Storage.getItem_setItem]
  · rw [Storage.getItem_setItem_of_ne _ _ _ _ (by decide), Storage.getItem_setItem]
  · rw [Storage.getItem_setItem]

theorem sairOnClick_removes_only_token_witness :
    Storage.getItem (sairOnClick
      ⟨[("userRole", "ADMIN"), ("token", "T"), ("theme", "dark")], [], "", []⟩).localStorage
      "token" = .null ∧
    Storage.getItem (sairOnClick
      ⟨[("userRole", "ADMIN"), ("token", "T"), ("theme", "dark")], [], "", []⟩).localStorage
      "userRole" = .str "ADMIN" ∧
    (sairOnClick
      ⟨[("userRole", "ADMIN"), ("token", "T"), ("theme", "dark")], [], "", []⟩).navigations
      = ["/admin/login"] :=
  ⟨(sairOnClick_removes_only_token
      ⟨[("userRole", "ADMIN"), ("token", "T"), ("theme", "dark")], [], "", []⟩).1,
   (sairOnClick_removes_only_token
      ⟨[("userRole", "ADMIN"), ("token", "T"), ("theme", "dark")], [], "", []⟩).2.1
      "userRole" (by decide),
   (sairOnClick_removes_only_token
      ⟨[("userRole", "ADMIN"), ("token", "T"), ("theme", "dark")], [], "", []⟩).2.2.1⟩

/-- C27: for a `toLowerCase` that maps the empty string, and only it, to the
empty string: when the search term is empty or all white space the filtered
list is the whole list; otherwise it is the list filtered, order kept, by
`containsTerm` (the `titulo` or the `categoriaNome`, when present, contains
the trimmed lower-cased term once lower-cased), and an article with neither
field is not in it.  In both cases it is a sub-list of the articles. -/
theorem noticiasFiltradas_spec (toLowerCase : String → String)
    (hlow : ∀ s, toLowerCase s = "" ↔ s = "") (v : DashboardView) :
    ((∀ c ∈ v.termoBusca.data, isWhiteSpace c = true) →
      noticiasFiltradas toLowerCase v = v.noticias) ∧
    ((∃ c ∈ v.termoBusca.data, isWhiteSpace c = false) →
      noticiasFiltradas toLowerCase v
        = v.noticias.filter (containsTerm toLowerCase v.termoBusca) ∧
      (∀ n ∈ v.noticias, n.titulo = none → n.categoriaNome = none →
        n ∉ noticiasFiltradas toLowerCase v)) ∧
    List.Sublist (noticiasFiltradas toLowerCase v) v.noticias := by
  refine ⟨?_, ?_, List.filter_sublist _⟩
  · intro hws
    have ht : toLowerCase (jsTrim v.termoBusca) = "" :=
      (hlow _).mpr ((jsTrim_eq_empty_iff _).mpr hws)
    simp [noticiasFiltradas, ht]
  · rintro ⟨c, hc, hcw⟩
    have htrim : jsTrim v.termoBusca ≠ "" := by
      intro h
      have := (jsTrim_eq_empty_iff _).mp h c hc
      rw [hcw] at this
      exact Bool.noConfusion this
    have ht : toLowerCase (jsTrim v.termoBusca) ≠ "" := fun h => htrim ((hlow _).mp h)
    have hempty : toLowerCase "" = "" := (hlow "").mpr rfl
    have hfun : ∀ n : Noticia,
        (if toLowerCase (jsTrim v.termoBusca) = "" then true
          else
            (match n.titulo with
              | some titulo =>
                titulo != "" && strIncludes (toLowerCase titulo) (toLowerCase (jsTrim v.termoBusca))
              | none => false) ||
            (match n.categoriaNome with
              | some categoriaNome => categoriaNome != "" &&
                strIncludes (toLowerCase categoriaNome) (toLowerCase (jsTrim v.termoBusca))
              | none => false))
          = containsTerm toLowerCase v.termoBusca n := by
      intro n
      rw [if_neg ht]
      unfold containsTerm
      have haux : ∀ o : Option String,
          (match o with
            | some x => x != "" && strIncludes (toLowerCase x) (toLowerCase (jsTrim v.termoBusca))
            | none => false)
          = (match o with
            | some x => strIncludes (toLowerCase x) (toLowerCase (jsTrim v.termoBusca))
            | none => false) := by
        intro o
        cases o with
        | none => rfl
        | some x =>
          by_cases hx : x = ""
          · subst hx
            simp [hempty, strIncludes_empty_left _ ht]
          · simp [hx]
      rw [haux n.titulo, haux n.categoriaNome]
    constructor
    · unfold noticiasFiltradas
      congr 1
      funext n
      exact hfun n
    · intro n _ h1 h2 hmem
      unfold noticiasFiltradas at hmem
      rw [List.mem_filter] at hmem
      have := hmem.2
      simp only [hfun n] at this
      simp [containsTerm, h1, h2] at this

theorem noticiasFiltradas_spec_witness :
    (∀ s, asciiToLowerCase s = "" ↔ s = "") ∧
    ((∀ c ∈ (" \t").data, isWhiteSpace c = true) ∧
      noticiasFiltradas asciiToLowerCase
        ⟨[], [⟨some "Vestibular 2025", some "Ensino"⟩, ⟨none, none⟩,
          ⟨some "Festa junina", some "Eventos"⟩], " \t", []⟩
      = [⟨some "Vestibular 2025", some "Ensino"⟩, ⟨none, none⟩,
          ⟨some "Festa junina", some "Eventos"⟩]) ∧
    ((∃ c ∈ (" ENSINO ").data, isWhiteSpace c = false) ∧
      noticiasFiltradas asciiToLowerCase
        ⟨[], [⟨some "Vestibular 2025", some "Ensino"⟩, ⟨none, none⟩,
          ⟨some "Festa junina", some "Eventos"⟩], " ENSINO ", []⟩
      = List.filter (containsTerm asciiToLowerCase " ENSINO ")
          [⟨some "Vestibular 2025", some "Ensino"⟩, ⟨none, none⟩,
            ⟨some "Festa junina", some "Eventos"⟩]) ∧
    noticiasFiltradas asciiToLowerCase
        ⟨[], [⟨some "Vestibular 2025", some "Ensino"⟩, ⟨none, none⟩,
          ⟨some "Festa junina", some "Eventos"⟩], " ENSINO ", []⟩
      = [⟨some "Vestibular 2025", some "Ensino"⟩] :=
  ⟨asciiToLowerCase_eq_empty_iff,
   ⟨by decide,
    (noticiasFiltradas_spec asciiToLowerCase asciiToLowerCase_eq_empty_iff
      ⟨[], [⟨some "Vestibular 2025", some "Ensino"⟩, ⟨none, none⟩,
        ⟨some "Festa junina", some "Eventos"⟩], " \t", []⟩).1 (by decide)⟩,
   ⟨by decide,
    ((noticiasFiltradas_spec asciiToLowerCase asciiToLowerCase_eq_empty_iff
      ⟨[], [⟨some "Vestibular 2025", some "Ensino"⟩, ⟨none, none⟩,
        ⟨some "Festa junina", some "Eventos"⟩], " ENSINO ", []⟩).2.1 (by decide)).1⟩,
   by decide⟩

/-! ## Dashboard: articles per category -/

/-- C28 (the code at the failing inputs): `contagem` is created by `{}`, so a
read under a name that `Object.prototype` has finds the inherited value, not
`undefined`.  One article of category "constructor" gives one entry whose
`quantidade` is a text ending in "1", not the number 1; two such articles give
a text ending in "11"; and one article of category "__proto__" gives no entry
at all.  With ordinary names the counts are right. -/
theorem calcularPorcentagensCategorias_inherited_names :
    calcularPorcentagensCategorias ⟨[], [⟨some "Posse", some "constructor"⟩], "", []⟩
      = [("constructor", .str "function Object() \x7b [native code] \x7d1")] ∧
    calcularPorcentagensCategorias
        ⟨[], [⟨some "Posse", some "constructor"⟩, ⟨some "Ata", some "constructor"⟩], "", []⟩
      = [("constructor", .str "function Object() \x7b [native code] \x7d11")] ∧
    calcularPorcentagensCategorias ⟨[], [⟨some "Posse", some "__proto__"⟩], "", []⟩ = [] ∧
    calcularPorcentagensCategorias
        ⟨[], [⟨some "Posse", some "Ensino"⟩, ⟨some "Ata", none⟩, ⟨some "Aula", some "Ensino"⟩,
          ⟨some "Calouros", some "2025"⟩], "", []⟩
      = [("2025", .num 1), ("Ensino", .num 2), ("Sem Categoria", .num 1)] := by
  decide

/-! ## NovaNoticia view -/

/-- C29 (as the claim states it, refuted): a form with no category chosen and
an empty storage.  The handler returns at its first check: no request is sent
and there is no navigation to "/admin/login", though no token is persisted. -/
theorem handleSubmit_no_token_counterexample :
    Storage.getItem
      (⟨[], "Posse", "r", "c", .str "", "", false, [], []⟩ : NovaNoticiaView).localStorage
      "token" = .null ∧
    (handleSubmit (.resolved .nullish)
      ⟨[], "Posse", "r", "c", .str "", "", false, [], []⟩).2.navigations = [] ∧
    (handleSubmit (.resolved .nullish)
      ⟨[], "Posse", "r", "c", .str "", "", false, [], []⟩).2.requests = [] := by
  decide

/-- C29 (amended): the request that creates the article is sent exactly when
`categoriaId` is not empty, the trimmed title is not empty, the storage holds
a truthy token and `parseInt(categoriaId)` is a number other than 0 and NaN.
When sent, it is one POST whose body has the trimmed `titulo`, `resumo` and
`conteudo`, `imagemCapa || null` (null when no image was set), the parsed
`categoriaId` and status "PUBLICADO".  When `categoriaId` is not empty, the
trimmed title is not empty and the storage holds no truthy token, the handler
navigates to "/admin/login" and sends nothing. -/
theorem handleSubmit_sends_iff (v : NovaNoticiaView) (post : PostOutcome) :
    (∀ n : Int, v.categoriaId ≠ "" → jsTrim v.titulo ≠ "" →
      (Storage.getItem v.localStorage "token").truthy = true →
      parseInt v.categoriaId = some n → n ≠ 0 →
      (handleSubmit post v).2.requests = v.requests ++
        [{ method := "POST"
           url := "http://localhost:8081/api/artigos"
           body := [("titulo", .str (jsTrim v.titulo)), ("resumo", .str (jsTrim v.resumo)),
             ("conteudo", .str (jsTrim v.conteudo)), ("imagemCapa", jsOr v.imagemCapa .null),
             ("categoriaId", .num n), ("status", .str "PUBLICADO")]
           headers := [("Authorization",
               "Bearer " ++ (Storage.getItem v.localStorage "token").toStr),
             ("Content-Type", "application/json")] }]) ∧
    (¬ (v.categoriaId ≠ "" ∧ jsTrim v.titulo ≠ "" ∧
        (Storage.getItem v.localStorage "token").truthy = true ∧
        ∃ n : Int, parseInt v.categoriaId = some n ∧ n ≠ 0) →
      (handleSubmit post v).2.requests = v.requests) ∧
    jsOr (.str "") .null = .null ∧
    (v.categoriaId ≠ "" → jsTrim v.titulo ≠ "" →
      (Storage.getItem v.localStorage "token").truthy = false →
      (handleSubmit post v).2.navigations = v.navigations ++ ["/admin/login"] ∧
      (handleSubmit post v).2.requests = v.requests) := by
  refine ⟨?_, ?_, rfl, ?_⟩
  · intro n h1 h2 h3 h4 h5
    cases post <;>
      simp [handleSubmit, handleSubmitTry, dadosNoticia, h1, h2, h3, h4, h5]
  · intro hc
    by_cases h1 : v.categoriaId = ""
    · simp [handleSubmit, h1]
    · by_cases h2 : jsTrim v.titulo = ""
      · simp [handleSubmit, h1, h2]
      · by_cases h3 : (Storage.getItem v.localStorage "token").truthy = true
        · cases h4 : parseInt v.categoriaId with
          | none => simp [handleSubmit, handleSubmitTry, h1, h2, h3, h4]
          | some n =>
            have h5 : n = 0 := by
              by_contra hn
              exact hc ⟨h1, h2, h3, n, h4, hn⟩
            simp [handleSubmit, handleSubmitTry, h1, h2, h3, h4, h5]
        · simp [handleSubmit, handleSubmitTry, h1, h2, h3]
  · intro h1 h2 h3
    simp [handleSubmit, handleSubmitTry, h1, h2, h3]

theorem handleSubmit_sends_iff_witness :
    (("3" : String) ≠ "" ∧ jsTrim " Posse " ≠ "" ∧
      (Storage.getItem [("token", "T")] "token").truthy = true ∧
      parseInt "3" = some 3 ∧ (3 : Int) ≠ 0) ∧
    (handleSubmit (.resolved .nullish)
      ⟨[("token", "T")], " Posse ", " r", "c ", .str "", "3", false, [], []⟩).2.requests
      = [⟨"POST", "http://localhost:8081/api/artigos",
          [("titulo", .str "Posse"), ("resumo", .str "r"), ("conteudo", .str "c"),
            ("imagemCapa", .null), ("categoriaId", .num 3), ("status", .str "PUBLICADO")],
          [("Authorization", "Bearer T"), ("Content-Type", "application/json")]⟩] ∧
    ((Storage.getItem [("theme", "dark")] "token").truthy = false ∧
      (handleSubmit (.resolved .nullish)
        ⟨[("theme", "dark")], " Posse ", " r", "c ", .str "", "3", false, [], []⟩).2.navigations
        = ["/admin/login"]) ∧
    (handleSubmit (.resolved .nullish)
      ⟨[("token", "T")], " Posse ", " r", "c ", .str "", "abc", false, [], []⟩).2.requests
      = [] :=
  ⟨⟨by decide, by decide, by decide, by decide, by decide⟩,
   (handleSubmit_sends_iff
      ⟨[("token", "T")], " Posse ", " r", "c ", .str "", "3", false, [], []⟩
      (.resolved .nullish)).1 3 (by decide) (by decide) (by decide) (by decide) (by decide),
   ⟨by decide,
    ((handleSubmit_sends_iff
      ⟨[("theme", "dark")], " Posse ", " r", "c ", .str "", "3", false, [], []⟩
      (.resolved .nullish)).2.2.2 (by decide) (by decide) (by decide)).1⟩,
   (handleSubmit_sends_iff
      ⟨[("token", "T")], " Posse ", " r", "c ", .str "", "abc", false, [], []⟩
      (.resolved .nullish)).2.1 (by decide)⟩

end TheClub
